import Mathlib

/-!
Verification of the pyblossom Bloom-filter wrapper (`pyblossom.c`) and its
wire codec.  The binding code (`load`, `dump`, `instantiate_filter`,
`Filter_init`, `Filter_add`, `Filter_check`, `compute_checksum`) is embedded
from the C source.  The external library pieces it calls (`bloom_init`,
`bloom_add`, `bloom_check` from libblossom, and `crc32` from `crc32.c`) are
not part of this repository's sources and are modelled from the
specification, as noted on each definition.  Machine integers are modelled
as `Nat`/`Int` with explicit reductions, C `double` arithmetic on error
rates as exact rationals.
-/

namespace PyBlossom

/-- Errors surfaced through the module's single error category.  The
constructors name the distinct failure messages in the C source. -/
inductive Err where
  | InvalidParameters
  | AllocationFailure
  | LengthMismatch
  | TruncatedInput
  | ChecksumMismatch
  | UnsupportedBuffer
  deriving DecidableEq, Repr

/-- Modelled from the spec: one step of a standard reflected CRC-32
(polynomial 0xEDB88320): shift right one bit, conditionally xor the
polynomial.  `crc32.c` is not part of this repository's sources. -/
def crcRound (c : Nat) : Nat :=
  if c % 2 = 1 then (c / 2) ^^^ 0xEDB88320 else c / 2

/-- Modelled from the spec: absorb one byte into the CRC-32 state. -/
def crcByte (c b : Nat) : Nat :=
  crcRound (crcRound (crcRound (crcRound
    (crcRound (crcRound (crcRound (crcRound (c ^^^ b))))))))

/-- Modelled from the spec: CRC-32 of a byte list starting from state `c`. -/
def crc32Acc (c : Nat) (l : List Nat) : Nat :=
  l.foldl crcByte c

/-- Modelled from the spec: `crc32(0, buf, len)` — 32-bit CRC with the
standard polynomial and initial state 0 over the payload bytes. -/
def crc32 (l : List Nat) : Nat :=
  crc32Acc 0 l

/-- Function compute_checksum from the C source: fold the 32-bit CRC to 16 bits by
xoring its low and high halves. -/
def compute_checksum (l : List Nat) : Nat :=
  (crc32 l &&& 0xFFFF) ^^^ (crc32 l >>> 16)

/-- Big-endian encoding of a 16-bit value, as produced by `htons`. -/
def be16 (x : Nat) : List Nat :=
  [x / 256 % 256, x % 256]

/-- Big-endian encoding of a 32-bit value, as produced by `htonl`. -/
def be32 (x : Nat) : List Nat :=
  [x / 2 ^ 24 % 256, x / 2 ^ 16 % 256, x / 256 % 256, x % 256]

/-- Function read_uint16 from the C source: big-endian 16-bit read from the front of a buffer. -/
def rd16 (l : List Nat) : Nat :=
  256 * l.getD 0 0 + l.getD 1 0

/-- Function read_uint32 from the C source: big-endian 32-bit read from the front of a buffer. -/
def rd32 (l : List Nat) : Nat :=
  2 ^ 24 * l.getD 0 0 + 2 ^ 16 * l.getD 1 0 + 256 * l.getD 2 0 + l.getD 3 0

/-- Conversion of a `uint32_t` value to a C `int`, as performed by the
`"i"` format of `Py_BuildValue` in `instantiate_filter`: two's-complement
reinterpretation. -/
def toInt32 (n : Nat) : Int :=
  if n < 2 ^ 31 then (n : Int) else (n : Int) - 2 ^ 32

/-- Conversion of a C `int` to `uint32_t`, as performed by `htonl` on the
`entries` field in `dump`: reduction modulo 2^32. -/
def toUInt32 (z : Int) : Nat :=
  (z % 2 ^ 32).toNat

/-- The C truncating conversion of the double `1.0 / error` to `uint16_t`
in `dump` (truncation toward zero; the value is positive, so floor). -/
def encErr (e : ℚ) : Nat :=
  (⌊(1 : ℚ) / e⌋).toNat % 2 ^ 16

/-- The `struct bloom` owned by a `Filter` object: capacity (`entries`,
a C `int`), target error rate (`error`, a C `double`, modelled as ℚ),
derived bit and byte counts and hash count, and the bit array `bf`. -/
structure Filter where
  entries : Int
  error : ℚ
  bits : Nat
  bytesLen : Nat
  hashes : Nat
  bf : List Nat
  deriving Repr

/-- Structural well-formedness of a filter: the data-model invariants the
spec states for a constructed filter. -/
def Wf (f : Filter) : Prop :=
  0 < f.bits ∧
  f.bytesLen = (f.bits + 7) / 8 ∧
  f.bf.length = f.bytesLen ∧
  (∀ b ∈ f.bf, b < 256) ∧
  1 ≤ f.entries ∧
  0 < f.error ∧
  f.error < 1 ∧
  1 ≤ f.hashes

/-- Modelled from the spec: `bloom_init`'s bit-count derivation
(`libblossom` is not part of this repository's sources):
`bit_count = ceil(-capacity * ln(error) / (ln 2)^2)`, minimum 1. -/
noncomputable def bloomBits (entries : Int) (error : ℚ) : Nat :=
  max 1 ⌈(-(entries : ℝ) * Real.log (error : ℝ)) / (Real.log 2) ^ 2⌉₊

/-- Modelled from the spec: byte length of the bit array,
`ceil(bit_count / 8)`. -/
noncomputable def bloomBytes (entries : Int) (error : ℚ) : Nat :=
  (bloomBits entries error + 7) / 8

/-- Modelled from the spec: `hash_count = round((bit_count / capacity) *
ln 2)`, clamped to at least 1. -/
noncomputable def bloomHashes (entries : Int) (error : ℚ) : Nat :=
  max 1 ⌊(bloomBits entries error : ℝ) / (entries : ℝ) * Real.log 2 + 1 / 2⌋₊

/-- Function Filter_init from the C source: validate parameters via `bloom_init`
(modelled from the spec: capacity must be positive, error rate in (0,1)),
then, when a seed buffer is supplied, reject it unless its length equals
the derived byte length, else copy it in.  A fresh filter is zero-filled. -/
noncomputable def filterInit (entries : Int) (error : ℚ) (data : Option (List Nat)) :
    Except Err Filter :=
  if entries < 1 ∨ error ≤ 0 ∨ 1 ≤ error then
    .error .InvalidParameters
  else
    let bits := bloomBits entries error
    let bytesLen := bloomBytes entries error
    let hashes := bloomHashes entries error
    match data with
    | none => .ok ⟨entries, error, bits, bytesLen, hashes, List.replicate bytesLen 0⟩
    | some d =>
        if d.length ≠ bytesLen then .error .LengthMismatch
        else .ok ⟨entries, error, bits, bytesLen, hashes, d⟩

/-- Function instantiate_filter from the C source: rebuild a filter from the wire
header fields, narrowing the unsigned 32-bit cardinality to a C `int` and
reconstructing the error rate as `1.0 / error_rate`. -/
noncomputable def instantiate_filter (cardinality : Nat) (error_rate : Nat)
    (data : List Nat) : Except Err Filter :=
  filterInit (toInt32 cardinality) ((1 : ℚ) / (error_rate : ℚ)) (some data)

/-- Function dump from the C source: 16-bit folded checksum of the bit array,
16-bit truncated error-rate reciprocal, 32-bit cardinality, all
big-endian, followed by the raw bit array. -/
def dump (f : Filter) : List Nat :=
  be16 (compute_checksum f.bf) ++ be16 (encErr f.error) ++
    be32 (toUInt32 f.entries) ++ f.bf

/-- Function load from the C source: reject buffers shorter than the 8-byte
header plus one payload byte, parse the big-endian header fields, verify
the folded checksum of the payload, and hand the fields to
`instantiate_filter`. -/
noncomputable def load (buf : List Nat) : Except Err Filter :=
  if buf.length < 9 then .error .TruncatedInput
  else
    let checksum := rd16 buf
    let error_rate := rd16 (buf.drop 2)
    let cardinality := rd32 (buf.drop 4)
    let data := buf.drop 8
    if compute_checksum data ≠ checksum then .error .ChecksumMismatch
    else instantiate_filter cardinality error_rate data

/-- Modelled from the spec: a well-distributed 64-bit hash of the member,
seeded; the spec leaves the concrete function open ("e.g., via a
well-distributed 64-bit hash function seeded twice"). -/
def hash64 (seed : Nat) (data : List Nat) : Nat :=
  data.foldl (fun h b => ((h ^^^ b % 256) * 0x100000001b3) % 2 ^ 64)
    ((seed ^^^ 0xcbf29ce484222325) % 2 ^ 64)

/-- Modelled from the spec: the `i`-th double-hashing probe position,
`(h1 + i*h2) mod bit_count`. -/
def probePos (bits : Nat) (x : List Nat) (i : Nat) : Nat :=
  (hash64 0 x + i * hash64 1 x) % bits

/-- Test bit `p` of the bit array (bit `p % 8` of byte `p / 8`). -/
def getBit (a : List Nat) (p : Nat) : Bool :=
  Nat.testBit (a.getD (p / 8) 0) (p % 8)

/-- Set bit `p` of the bit array. -/
def setBit (a : List Nat) (p : Nat) : List Nat :=
  a.set (p / 8) (a.getD (p / 8) 0 ||| 1 <<< (p % 8))

/-- Function Filter_add delegating to bloom_add (modelled from the spec): set all `hashes` probe positions
for the member. -/
def addMember (f : Filter) (x : List Nat) : Filter :=
  let nbf := (List.range f.hashes).foldl (fun a i => setBit a (probePos f.bits x i)) f.bf
  { f with bf := nbf }

/-- Function Filter_check delegating to bloom_check (modelled from the spec): true iff every probe position
for the member is set. -/
def checkMember (f : Filter) (x : List Nat) : Bool :=
  (List.range f.hashes).all (fun i => getBit f.bf (probePos f.bits x i))

/-- Add a list of members in order. -/
def addAll (f : Filter) (xs : List (List Nat)) : Filter :=
  xs.foldl addMember f

/-- Flip bit `i` (bit `i % 8` of byte `i / 8`) of a buffer. -/
def flipBit (i : Nat) (l : List Nat) : List Nat :=
  l.set (i / 8) (l.getD (i / 8) 0 ^^^ 1 <<< (i % 8))

/-! ### Basic bounds -/

theorem crcRound_lt (c : Nat) (h : c < 2 ^ 32) : crcRound c < 2 ^ 32 := by
  unfold crcRound
  split
  · exact Nat.xor_lt_two_pow (by omega) (by norm_num)
  · omega

theorem crcByte_lt (c b : Nat) (hc : c < 2 ^ 32) (hb : b < 256) :
    crcByte c b < 2 ^ 32 := by
  unfold crcByte
  have h0 : c ^^^ b < 2 ^ 32 := Nat.xor_lt_two_pow hc (by omega)
  exact crcRound_lt _ (crcRound_lt _ (crcRound_lt _ (crcRound_lt _
    (crcRound_lt _ (crcRound_lt _ (crcRound_lt _ (crcRound_lt _ h0)))))))

theorem crc32Acc_lt (l : List Nat) (c : Nat) (hc : c < 2 ^ 32)
    (hl : ∀ b ∈ l, b < 256) : crc32Acc c l < 2 ^ 32 := by
  induction l generalizing c with
  | nil => simpa [crc32Acc] using hc
  | cons a t ih =>
      have ha : a < 256 := hl a (by simp)
      have ht : ∀ b ∈ t, b < 256 := fun b hb => hl b (by simp [hb])
      simpa [crc32Acc] using ih (crcByte c a) (crcByte_lt c a hc ha) ht

theorem compute_checksum_lt (l : List Nat) (hl : ∀ b ∈ l, b < 256) :
    compute_checksum l < 2 ^ 16 := by
  have h32 : crc32 l < 2 ^ 32 := crc32Acc_lt l 0 (by norm_num) hl
  unfold compute_checksum
  refine Nat.xor_lt_two_pow (Nat.and_lt_two_pow _ (by norm_num)) ?_
  have : crc32 l >>> 16 = crc32 l / 2 ^ 16 := Nat.shiftRight_eq_div_pow _ _
  omega

theorem toUInt32_lt (z : Int) : toUInt32 z < 2 ^ 32 := by
  unfold toUInt32
  omega

theorem encErr_lt (e : ℚ) : encErr e < 2 ^ 16 := by
  unfold encErr
  omega

/-! ### Wire layout of a dumped buffer -/

theorem dump_as_cons (f : Filter) :
    dump f = compute_checksum f.bf / 256 % 256 :: compute_checksum f.bf % 256 ::
      encErr f.error / 256 % 256 :: encErr f.error % 256 ::
      toUInt32 f.entries / 2 ^ 24 % 256 :: toUInt32 f.entries / 2 ^ 16 % 256 ::
      toUInt32 f.entries / 256 % 256 :: toUInt32 f.entries % 256 :: f.bf := by
  simp [dump, be16, be32]

theorem dump_length (f : Filter) : (dump f).length = 8 + f.bf.length := by
  rw [dump_as_cons]
  simp
  omega

theorem dump_drop8 (f : Filter) : (dump f).drop 8 = f.bf := by
  rw [dump_as_cons]
  rfl

theorem rd16_dump (f : Filter) (h : compute_checksum f.bf < 2 ^ 16) :
    rd16 (dump f) = compute_checksum f.bf := by
  rw [dump_as_cons]
  simp [rd16]
  omega

theorem rd16_dump_drop2 (f : Filter) : rd16 ((dump f).drop 2) = encErr f.error := by
  rw [dump_as_cons]
  have h := encErr_lt f.error
  simp [rd16]
  omega

theorem rd32_dump_drop4 (f : Filter) :
    rd32 ((dump f).drop 4) = toUInt32 f.entries := by
  rw [dump_as_cons]
  have h := toUInt32_lt f.entries
  simp [rd32]
  omega

/-! ### Characterizations of filterInit and load -/

theorem filterInit_invalid (entries : Int) (error : ℚ) (data : Option (List Nat))
    (h : entries < 1 ∨ error ≤ 0 ∨ 1 ≤ error) :
    filterInit entries error data = .error .InvalidParameters := by
  unfold filterInit
  simp [h]

theorem filterInit_length_mismatch (entries : Int) (error : ℚ) (d : List Nat)
    (hv : ¬(entries < 1 ∨ error ≤ 0 ∨ 1 ≤ error))
    (hd : d.length ≠ bloomBytes entries error) :
    filterInit entries error (some d) = .error .LengthMismatch := by
  unfold filterInit
  simp [hv, hd]

theorem filterInit_ok_some (entries : Int) (error : ℚ) (d : List Nat)
    (hv : ¬(entries < 1 ∨ error ≤ 0 ∨ 1 ≤ error))
    (hd : d.length = bloomBytes entries error) :
    filterInit entries error (some d) =
      .ok ⟨entries, error, bloomBits entries error, bloomBytes entries error,
        bloomHashes entries error, d⟩ := by
  unfold filterInit
  simp [hv, hd]

theorem filterInit_ok_none (entries : Int) (error : ℚ)
    (hv : ¬(entries < 1 ∨ error ≤ 0 ∨ 1 ≤ error)) :
    filterInit entries error none =
      .ok ⟨entries, error, bloomBits entries error, bloomBytes entries error,
        bloomHashes entries error, List.replicate (bloomBytes entries error) 0⟩ := by
  unfold filterInit
  simp [hv]

theorem filterInit_never_checksum_err (entries : Int) (error : ℚ)
    (data : Option (List Nat)) :
    filterInit entries error data ≠ .error .ChecksumMismatch ∧
    filterInit entries error data ≠ .error .TruncatedInput := by
  unfold filterInit
  split
  · simp
  · cases data with
    | none => simp
    | some d =>
        by_cases hd : d.length ≠ bloomBytes entries error <;> simp [hd]

theorem load_truncated (buf : List Nat) (h : buf.length < 9) :
    load buf = .error .TruncatedInput := by
  unfold load
  simp [h]

theorem load_checksum_mismatch (buf : List Nat) (h9 : ¬buf.length < 9)
    (hck : compute_checksum (buf.drop 8) ≠ rd16 buf) :
    load buf = .error .ChecksumMismatch := by
  unfold load
  simp [h9, hck]

theorem load_delegates (buf : List Nat) (h9 : ¬buf.length < 9)
    (hck : compute_checksum (buf.drop 8) = rd16 buf) :
    load buf = instantiate_filter (rd32 (buf.drop 4)) (rd16 (buf.drop 2))
      (buf.drop 8) := by
  unfold load
  simp [h9, hck]

/-! ### Numeric evaluation of the spec-modelled sizing at small inputs -/

theorem log_three_halves_le : Real.log (3 / 2) ≤ 5559 / 13440 := by
  have hx : |(-(1 / 2) : ℝ)| < 1 := by rw [abs_neg, abs_of_pos] <;> norm_num
  have h := Real.abs_log_sub_add_sum_range_le hx 7
  rw [show (1 : ℝ) - -(1 / 2) = 3 / 2 by norm_num] at h
  simp [Finset.sum_range_succ] at h
  rw [abs_le] at h
  have h2 := h.2
  have habs : |(2 : ℝ)⁻¹| = 2⁻¹ := abs_of_pos (by norm_num)
  rw [habs] at h2
  norm_num at h2 ⊢
  linarith

theorem log_two_sq_gt : (0.48 : ℝ) < (Real.log 2) ^ 2 := by
  have h := Real.log_two_gt_d9
  nlinarith

theorem bloomBits_one_half : bloomBits 1 (1 / 2) = 2 := by
  have hgt := Real.log_two_gt_d9
  have hlt := Real.log_two_lt_d9
  have hpos : (0 : ℝ) < Real.log 2 := by linarith
  have hsq : (0 : ℝ) < (Real.log 2) ^ 2 := by positivity
  have hcast : (((1 : ℚ) / 2 : ℚ) : ℝ) = (2 : ℝ)⁻¹ := by norm_num
  have hlog : -(1 : ℝ) * Real.log ((2 : ℝ)⁻¹) = Real.log 2 := by
    rw [Real.log_inv]
    ring
  have hval : (-(1 : ℝ) * Real.log (((1 : ℚ) / 2 : ℚ) : ℝ)) / (Real.log 2) ^ 2 =
      Real.log 2 / (Real.log 2) ^ 2 := by
    rw [hcast, hlog]
  unfold bloomBits
  rw [show ((1 : Int) : ℝ) = (1 : ℝ) by norm_num] at *
  rw [hval]
  have hceil : ⌈Real.log 2 / (Real.log 2) ^ 2⌉₊ = 2 := by
    rw [Nat.ceil_eq_iff (by norm_num)]
    constructor
    · rw [lt_div_iff hsq]
      push_cast
      nlinarith
    · rw [div_le_iff hsq]
      push_cast
      nlinarith
  rw [hceil]
  decide

theorem bloomBytes_one_half : bloomBytes 1 (1 / 2) = 1 := by
  unfold bloomBytes
  rw [bloomBits_one_half]

theorem bloomHashes_one_half : bloomHashes 1 (1 / 2) = 1 := by
  have hgt := Real.log_two_gt_d9
  have hlt := Real.log_two_lt_d9
  unfold bloomHashes
  rw [bloomBits_one_half]
  have hfloor : ⌊((2 : Nat) : ℝ) / ((1 : Int) : ℝ) * Real.log 2 + 1 / 2⌋₊ = 1 := by
    rw [Nat.floor_eq_iff (by push_cast; nlinarith)]
    push_cast
    constructor <;> nlinarith
  rw [hfloor]
  decide

theorem bloomBits_two_thirds : bloomBits 1 (2 / 3) = 1 := by
  have hsqgt := log_two_sq_gt
  have h32 := log_three_halves_le
  have h32pos : (0 : ℝ) < Real.log (3 / 2) := Real.log_pos (by norm_num)
  have hsq : (0 : ℝ) < (Real.log 2) ^ 2 := by linarith
  have hcast : (((2 : ℚ) / 3 : ℚ) : ℝ) = ((3 : ℝ) / 2)⁻¹ := by norm_num
  have hlog : -(1 : ℝ) * Real.log (((3 : ℝ) / 2)⁻¹) = Real.log (3 / 2) := by
    rw [Real.log_inv]
    ring
  unfold bloomBits
  rw [show ((1 : Int) : ℝ) = (1 : ℝ) by norm_num] at *
  rw [hcast, hlog]
  have hceil : ⌈Real.log (3 / 2) / (Real.log 2) ^ 2⌉₊ = 1 := by
    rw [Nat.ceil_eq_iff (by norm_num)]
    constructor
    · push_cast
      positivity
    · rw [div_le_iff hsq]
      push_cast
      nlinarith
  rw [hceil]
  decide

theorem bloomBytes_two_thirds : bloomBytes 1 (2 / 3) = 1 := by
  unfold bloomBytes
  rw [bloomBits_two_thirds]

theorem bloomHashes_two_thirds : bloomHashes 1 (2 / 3) = 1 := by
  have hgt := Real.log_two_gt_d9
  have hlt := Real.log_two_lt_d9
  unfold bloomHashes
  rw [bloomBits_two_thirds]
  have hfloor : ⌊((1 : Nat) : ℝ) / ((1 : Int) : ℝ) * Real.log 2 + 1 / 2⌋₊ = 1 := by
    rw [Nat.floor_eq_iff (by push_cast; nlinarith)]
    push_cast
    constructor <;> nlinarith
  rw [hfloor]
  decide

/-! ### Concrete constructions -/

theorem filterInit_eval_half_none :
    filterInit 1 (1 / 2) none = .ok ⟨1, 1 / 2, 2, 1, 1, [0]⟩ := by
  rw [filterInit_ok_none 1 (1 / 2) (by norm_num), bloomBits_one_half,
    bloomBytes_one_half, bloomHashes_one_half]
  rfl

theorem filterInit_eval_half_some :
    filterInit 1 (1 / 2) (some [0]) = .ok ⟨1, 1 / 2, 2, 1, 1, [0]⟩ := by
  rw [filterInit_ok_some 1 (1 / 2) [0] (by norm_num)
    (by rw [bloomBytes_one_half]; rfl), bloomBits_one_half,
    bloomBytes_one_half, bloomHashes_one_half]

theorem filterInit_eval_twothirds :
    filterInit 1 (2 / 3) none = .ok ⟨1, 2 / 3, 1, 1, 1, [0]⟩ := by
  rw [filterInit_ok_none 1 (2 / 3) (by norm_num), bloomBits_two_thirds,
    bloomBytes_two_thirds, bloomHashes_two_thirds]
  rfl

/-! ### Bit-array lemmas -/

theorem setBit_length (a : List Nat) (p : Nat) :
    (setBit a p).length = a.length := by
  simp [setBit]

theorem getBit_setBit_self (a : List Nat) (p : Nat) (h : p / 8 < a.length) :
    getBit (setBit a p) p = true := by
  unfold getBit setBit
  rw [List.getD_eq_getElem?_getD, List.getElem?_set_eq h]
  simp [Nat.testBit_or, Nat.shiftLeft_eq, Nat.testBit_two_pow_self]

theorem getBit_setBit_mono (a : List Nat) (p q : Nat)
    (h : getBit a p = true) : getBit (setBit a q) p = true := by
  unfold getBit setBit
  rcases le_or_lt a.length (q / 8) with hq | hq
  · rw [List.set_eq_of_length_le hq]
    exact h
  · rcases eq_or_ne (q / 8) (p / 8) with he | he
    · rw [List.getD_eq_getElem?_getD, he, List.getElem?_set_eq (he ▸ hq)]
      unfold getBit at h
      rw [List.getD_eq_getElem?_getD] at h
      rw [← he] at h ⊢
      simp only [Option.getD]
      simp [Nat.testBit_or]
      left
      simpa [he] using h
    · rw [List.getD_eq_getElem?_getD, List.getElem?_set_ne he,
        ← List.getD_eq_getElem?_getD]
      exact h

theorem foldl_setBit_length (pos : Nat → Nat) (l : List Nat) (a : List Nat) :
    (l.foldl (fun acc i => setBit acc (pos i)) a).length = a.length := by
  induction l generalizing a with
  | nil => rfl
  | cons j t ih => simpa [setBit_length] using ih (setBit a (pos j))

theorem foldl_setBit_mono (pos : Nat → Nat) (l : List Nat) (a : List Nat)
    (p : Nat) (h : getBit a p = true) :
    getBit (l.foldl (fun acc i => setBit acc (pos i)) a) p = true := by
  induction l generalizing a with
  | nil => exact h
  | cons j t ih => exact ih (setBit a (pos j)) (getBit_setBit_mono a p (pos j) h)

theorem foldl_setBit_sets (pos : Nat → Nat) (l : List Nat) (a : List Nat)
    (i : Nat) (hi : i ∈ l) (hpos : ∀ j ∈ l, pos j / 8 < a.length) :
    getBit (l.foldl (fun acc i => setBit acc (pos i)) a) (pos i) = true := by
  induction l generalizing a with
  | nil => cases hi
  | cons j t ih =>
      rcases List.mem_cons.mp hi with rfl | hmem
      · exact foldl_setBit_mono pos t (setBit a (pos i))
          (pos i) (getBit_setBit_self a (pos i) (hpos i (by simp)))
      · exact ih (setBit a (pos j)) hmem
          (fun k hk => by
            rw [setBit_length]
            exact hpos k (by simp [hk]))

/-! ### Claim C6 -/

/-- C6: `load` fails with `TruncatedInput` exactly when the input buffer is
shorter than 9 bytes (the 8-byte header plus at least one payload byte);
on any longer buffer the failure, if any, is a different error. -/
theorem C6_truncation_iff (buf : List Nat) :
    load buf = .error .TruncatedInput ↔ buf.length < 9 := by
  constructor
  · intro h
    by_contra h9
    rcases eq_or_ne (compute_checksum (buf.drop 8)) (rd16 buf) with hck | hck
    · rw [load_delegates buf h9 hck] at h
      exact (filterInit_never_checksum_err _ _ _).2 (by simpa [instantiate_filter] using h)
    · rw [load_checksum_mismatch buf h9 hck] at h
      simp at h
  · exact load_truncated buf

/-! ### Claim C7 -/

/-- C7: for every capacity and error rate in the valid range, constructing
with a seed buffer whose length differs from the derived byte length
`ceil(bit_count/8)` fails with `LengthMismatch`. -/
theorem C7_seed_length_mismatch (entries : Int) (error : ℚ) (d : List Nat)
    (he : 1 ≤ entries) (h0 : 0 < error) (h1 : error < 1)
    (hd : d.length ≠ bloomBytes entries error) :
    filterInit entries error (some d) = .error .LengthMismatch := by
  refine filterInit_length_mismatch entries error d ?_ hd
  push_neg
  exact ⟨he, h0, h1⟩

/-- Witness for C7 at capacity 1, error rate 1/2, empty seed buffer. -/
theorem C7_seed_length_mismatch_witness :
    filterInit 1 (1 / 2) (some []) = .error .LengthMismatch :=
  C7_seed_length_mismatch 1 (1 / 2) [] (by norm_num) (by norm_num) (by norm_num)
    (by rw [bloomBytes_one_half]; simp)

/-! ### Claim C2 -/

theorem addMember_bits (f : Filter) (x : List Nat) :
    (addMember f x).bits = f.bits := rfl

theorem addMember_hashes (f : Filter) (x : List Nat) :
    (addMember f x).hashes = f.hashes := rfl

theorem addMember_bf_length (f : Filter) (x : List Nat) :
    (addMember f x).bf.length = f.bf.length :=
  foldl_setBit_length _ _ _

theorem addAll_bits (f : Filter) (ys : List (List Nat)) :
    (addAll f ys).bits = f.bits := by
  induction ys generalizing f with
  | nil => rfl
  | cons y t ih => simpa [addAll] using ih (addMember f y)

theorem addAll_hashes (f : Filter) (ys : List (List Nat)) :
    (addAll f ys).hashes = f.hashes := by
  induction ys generalizing f with
  | nil => rfl
  | cons y t ih => simpa [addAll] using ih (addMember f y)

theorem addAll_getBit_mono (f : Filter) (ys : List (List Nat)) (p : Nat)
    (h : getBit f.bf p = true) : getBit (addAll f ys).bf p = true := by
  induction ys generalizing f with
  | nil => exact h
  | cons y t ih =>
      exact ih (addMember f y) (foldl_setBit_mono _ _ _ p h)

theorem probePos_lt (bits : Nat) (x : List Nat) (i : Nat) (h : 0 < bits) :
    probePos bits x i < bits :=
  Nat.mod_lt _ h

/-- C2: for every byte sequence `x` and well-formed filter `f`, after
adding `x`, membership of `x` checks true, and it remains true after any
further sequence of adds (bits are only ever set, never cleared). -/
theorem C2_no_false_negatives (f : Filter) (x : List Nat)
    (ys : List (List Nat)) (hf : Wf f) :
    checkMember (addAll (addMember f x) ys) x = true := by
  obtain ⟨hbits, hbytes, hlen, _, _, _, _, _⟩ := hf
  have hb8 : f.bits ≤ 8 * f.bf.length := by
    rw [hlen, hbytes]
    omega
  unfold checkMember
  rw [addAll_hashes, addMember_hashes, addAll_bits, addMember_bits]
  rw [List.all_eq_true]
  intro i hi
  have hset : getBit (addMember f x).bf (probePos f.bits x i) = true := by
    unfold addMember
    exact foldl_setBit_sets (probePos f.bits x) (List.range f.hashes) f.bf i hi
      (fun j _ => by
        have := probePos_lt f.bits x j hbits
        omega)
  simpa using addAll_getBit_mono (addMember f x) ys (probePos f.bits x i) hset

/-- Witness for C2: a concrete well-formed filter, member [5], and a
further add of [6]. -/
theorem C2_no_false_negatives_witness :
    checkMember (addAll (addMember ⟨1, 1 / 2, 8, 1, 2, [0]⟩ [5]) [[6]]) [5] = true :=
  C2_no_false_negatives ⟨1, 1 / 2, 8, 1, 2, [0]⟩ [5] [[6]]
    ⟨by norm_num, by norm_num, by norm_num, by simp, by norm_num, by norm_num,
      by norm_num, by norm_num⟩

/-! ### Well-formedness of constructed filters -/

theorem bloomBits_pos (entries : Int) (error : ℚ) : 0 < bloomBits entries error := by
  unfold bloomBits
  omega

theorem bloomHashes_pos (entries : Int) (error : ℚ) : 1 ≤ bloomHashes entries error := by
  unfold bloomHashes
  omega

theorem wf_of_filterInit_ok (entries : Int) (error : ℚ) (data : Option (List Nat))
    (f : Filter) (h : filterInit entries error data = .ok f)
    (hdata : ∀ l, data = some l → ∀ b ∈ l, b < 256) : Wf f := by
  by_cases hv : entries < 1 ∨ error ≤ 0 ∨ 1 ≤ error
  · rw [filterInit_invalid entries error data hv] at h
    simp at h
  · push_neg at hv
    obtain ⟨he, h0, h1⟩ := hv
    have hv' : ¬(entries < 1 ∨ error ≤ 0 ∨ 1 ≤ error) := by push_neg; exact ⟨he, h0, h1⟩
    cases data with
    | none =>
        rw [filterInit_ok_none entries error hv'] at h
        obtain rfl : _ = f := (Except.ok.injEq _ _).mp h
        exact ⟨bloomBits_pos entries error, rfl, List.length_replicate _ _,
          fun b hb => by rw [List.eq_of_mem_replicate hb]; norm_num,
          he, h0, h1, bloomHashes_pos entries error⟩
    | some l =>
        by_cases hl : l.length = bloomBytes entries error
        · rw [filterInit_ok_some entries error l hv' hl] at h
          obtain rfl : _ = f := (Except.ok.injEq _ _).mp h
          exact ⟨bloomBits_pos entries error, rfl, hl,
            hdata l rfl, he, h0, h1, bloomHashes_pos entries error⟩
        · rw [filterInit_length_mismatch entries error l hv' hl] at h
          simp at h

theorem filterInit_ok_fields (entries : Int) (error : ℚ) (data : Option (List Nat))
    (f : Filter) (h : filterInit entries error data = .ok f) :
    f.entries = entries ∧ f.error = error ∧ 1 ≤ entries ∧ 0 < error ∧ error < 1 ∧
      f.bytesLen = bloomBytes entries error := by
  by_cases hv : entries < 1 ∨ error ≤ 0 ∨ 1 ≤ error
  · rw [filterInit_invalid entries error data hv] at h
    simp at h
  · push_neg at hv
    obtain ⟨he, h0, h1⟩ := hv
    have hv' : ¬(entries < 1 ∨ error ≤ 0 ∨ 1 ≤ error) := by push_neg; exact ⟨he, h0, h1⟩
    cases data with
    | none =>
        rw [filterInit_ok_none entries error hv'] at h
        obtain rfl : _ = f := (Except.ok.injEq _ _).mp h
        exact ⟨rfl, rfl, he, h0, h1, rfl⟩
    | some l =>
        by_cases hl : l.length = bloomBytes entries error
        · rw [filterInit_ok_some entries error l hv' hl] at h
          obtain rfl : _ = f := (Except.ok.injEq _ _).mp h
          exact ⟨rfl, rfl, he, h0, h1, rfl⟩
        · rw [filterInit_length_mismatch entries error l hv' hl] at h
          simp at h

/-! ### Claim C9 -/

/-- C9: construction and load are atomic in the model: whenever either
returns a filter, that filter satisfies all the data-model invariants
(`Wf`); every other outcome is one of the distinguished errors carrying no
filter at all. -/
theorem C9_atomicity (entries : Int) (error : ℚ) (data : Option (List Nat))
    (buf : List Nat) (f g : Filter)
    (hdata : ∀ l, data = some l → ∀ b ∈ l, b < 256)
    (hbuf : ∀ b ∈ buf, b < 256) :
    (filterInit entries error data = .ok f → Wf f) ∧
    (load buf = .ok g → Wf g) := by
  constructor
  · intro h
    exact wf_of_filterInit_ok entries error data f h hdata
  · intro h
    by_cases h9 : buf.length < 9
    · rw [load_truncated buf h9] at h
      simp at h
    · rcases eq_or_ne (compute_checksum (buf.drop 8)) (rd16 buf) with hck | hck
      · rw [load_delegates buf h9 hck] at h
        unfold instantiate_filter at h
        exact wf_of_filterInit_ok _ _ _ g h
          (fun l hl b hb => hbuf b (List.mem_of_mem_drop ((Option.some.injEq _ _).mp hl ▸ hb)))
      · rw [load_checksum_mismatch buf h9 hck] at h
        simp at h

/-- Witness for C9: the filter produced by construction at capacity 1,
error rate 1/2, seed buffer [0] satisfies the invariants. -/
theorem C9_atomicity_witness : Wf ⟨1, 1 / 2, 2, 1, 1, [0]⟩ :=
  (C9_atomicity 1 (1 / 2) (some [0]) [] ⟨1, 1 / 2, 2, 1, 1, [0]⟩
    ⟨1, 1 / 2, 2, 1, 1, [0]⟩
    (fun l hl b hb => by
      obtain rfl : [0] = l := (Option.some.injEq _ _).mp hl
      simp at hb
      omega)
    (by simp)).1 filterInit_eval_half_some

/-! ### Claim C10 -/

theorem getD_lt_256 (l : List Nat) (hl : ∀ b ∈ l, b < 256) (i : Nat) :
    l.getD i 0 < 256 := by
  rw [List.getD_eq_getElem?_getD]
  cases hget : l[i]? with
  | none => norm_num
  | some a =>
      have hmem : a ∈ l := by
        have hilen : i < l.length := by
          by_contra hge
          rw [List.getElem?_eq_none (by omega)] at hget
          simp at hget
        rw [List.getElem?_eq_getElem hilen] at hget
        obtain rfl : l[i] = a := (Option.some.injEq _ _).mp hget
        exact List.getElem_mem hilen
      simpa using hl a hmem


theorem rd32_lt (l : List Nat) (hl : ∀ b ∈ l, b < 256) : rd32 l < 2 ^ 32 := by
  have h0 := getD_lt_256 l hl 0
  have h1 := getD_lt_256 l hl 1
  have h2 := getD_lt_256 l hl 2
  have h3 := getD_lt_256 l hl 3
  unfold rd32
  omega

theorem toInt32_lt (n : Nat) (h : n < 2 ^ 32) : toInt32 n < 2 ^ 31 := by
  unfold toInt32
  split <;> [skip; skip] <;> push_cast <;> omega

/-- C10: `load` narrows the unsigned 32-bit cardinality field through a
signed C `int`: whenever the header field is at least 2^31, the value
handed to construction is negative (its two's-complement
reinterpretation), such a load fails with `InvalidParameters`, and no
successfully loaded filter ever has capacity in [2^31, 2^32). -/
theorem C10_cardinality_narrowing (buf : List Nat) (g : Filter)
    (hb : ∀ b ∈ buf, b < 256) :
    (2 ^ 31 ≤ rd32 (buf.drop 4) → toInt32 (rd32 (buf.drop 4)) < 0) ∧
    (¬buf.length < 9 → compute_checksum (buf.drop 8) = rd16 buf →
      2 ^ 31 ≤ rd32 (buf.drop 4) → load buf = .error .InvalidParameters) ∧
    (load buf = .ok g → 0 < g.entries ∧ g.entries < 2 ^ 31) := by
  have hdropb : ∀ b ∈ buf.drop 4, b < 256 := fun b hbm => hb b (List.mem_of_mem_drop hbm)
  have hlt : rd32 (buf.drop 4) < 2 ^ 32 := rd32_lt _ hdropb
  refine ⟨?_, ?_, ?_⟩
  · intro hge
    unfold toInt32
    split
    · omega
    · push_cast
      omega
  · intro h9 hck hge
    rw [load_delegates buf h9 hck]
    unfold instantiate_filter
    refine filterInit_invalid _ _ _ (Or.inl ?_)
    have : toInt32 (rd32 (buf.drop 4)) < 0 := by
      unfold toInt32
      split
      · omega
      · push_cast
        omega
    omega
  · intro h
    by_cases h9 : buf.length < 9
    · rw [load_truncated buf h9] at h
      simp at h
    · rcases eq_or_ne (compute_checksum (buf.drop 8)) (rd16 buf) with hck | hck
      · rw [load_delegates buf h9 hck] at h
        unfold instantiate_filter at h
        obtain ⟨hent, _, hge1, _, _, _⟩ := filterInit_ok_fields _ _ _ g h
        have := toInt32_lt (rd32 (buf.drop 4)) hlt
        constructor
        · omega
        · omega
      · rw [load_checksum_mismatch buf h9 hck] at h
        simp at h

/-- Witness for C10 at a 9-byte buffer whose cardinality field is 2^31:
the narrowed value is negative and the load fails with
`InvalidParameters`. -/
theorem C10_cardinality_narrowing_witness :
    toInt32 (rd32 ([0, 0, 0, 2, 128, 0, 0, 0, 0].drop 4)) < 0 ∧
    load [0, 0, 0, 2, 128, 0, 0, 0, 0] = .error .InvalidParameters := by
  have h := C10_cardinality_narrowing [0, 0, 0, 2, 128, 0, 0, 0, 0]
    ⟨1, 1 / 2, 2, 1, 1, [0]⟩ (by decide)
  exact ⟨h.1 (by decide), h.2.1 (by decide) (by decide) (by decide)⟩

/-! ### Evaluating the error-rate encoding -/

theorem encErr_half : encErr (1 / 2) = 2 := by
  unfold encErr
  norm_num
  decide

theorem encErr_twothirds : encErr (2 / 3) = 1 := by
  unfold encErr
  norm_num

/-! ### Shared lemma: loading a dumped buffer -/

theorem wf_bytesLen_pos (f : Filter) (hf : Wf f) : 1 ≤ f.bf.length := by
  obtain ⟨hbits, hbytes, hlen, _, _, _, _, _⟩ := hf
  omega

theorem load_dump_eq (f : Filter) (hf : Wf f) :
    load (dump f) = instantiate_filter (toUInt32 f.entries) (encErr f.error) f.bf := by
  have hlen1 : 1 ≤ f.bf.length := wf_bytesLen_pos f hf
  have hck16 : compute_checksum f.bf < 2 ^ 16 := compute_checksum_lt f.bf hf.2.2.2.1
  have h9 : ¬(dump f).length < 9 := by
    rw [dump_length]
    omega
  rw [load_delegates (dump f) h9
    (by rw [dump_drop8, rd16_dump f hck16]),
    rd32_dump_drop4, rd16_dump_drop2, dump_drop8]

/-! ### Claim C8 -/

/-- C8: the dumped buffer is the fixed 8-byte header followed by the raw
bit array, all header fields big-endian: the folded checksum decodes at
offset 0, the error-rate reciprocal at offset 2, the 32-bit cardinality at
offset 4, the payload from offset 8; and `load` parses exactly those
fields back in that order before reconstructing. -/
theorem C8_wire_layout (f : Filter) (hf : Wf f) :
    (dump f).length = 8 + f.bf.length ∧
    rd16 (dump f) = compute_checksum f.bf ∧
    rd16 ((dump f).drop 2) = encErr f.error ∧
    rd32 ((dump f).drop 4) = toUInt32 f.entries ∧
    (dump f).drop 8 = f.bf ∧
    load (dump f) = instantiate_filter (toUInt32 f.entries) (encErr f.error) f.bf :=
  ⟨dump_length f,
   rd16_dump f (compute_checksum_lt f.bf hf.2.2.2.1),
   rd16_dump_drop2 f,
   rd32_dump_drop4 f,
   dump_drop8 f,
   load_dump_eq f hf⟩

/-- Witness for C8 at the filter constructed from capacity 1, error rate
1/2 (bit array [0]). -/
theorem C8_wire_layout_witness :
    (dump ⟨1, 1 / 2, 2, 1, 1, [0]⟩).length = 8 + 1 ∧
    rd16 (dump ⟨1, 1 / 2, 2, 1, 1, [0]⟩) = 0 ∧
    rd16 ((dump ⟨1, 1 / 2, 2, 1, 1, [0]⟩).drop 2) = 2 ∧
    rd32 ((dump ⟨1, 1 / 2, 2, 1, 1, [0]⟩).drop 4) = 1 ∧
    (dump ⟨1, 1 / 2, 2, 1, 1, [0]⟩).drop 8 = [0] := by
  have h := C8_wire_layout ⟨1, 1 / 2, 2, 1, 1, [0]⟩
    ⟨by norm_num, by norm_num, by norm_num, by simp, by norm_num, by norm_num,
      by norm_num, by norm_num⟩
  refine ⟨h.1, ?_, ?_, ?_, h.2.2.2.2.1⟩
  · rw [h.2.1]
    decide
  · rw [h.2.2.1]
    exact encErr_half
  · rw [h.2.2.2.1]
    decide

/-! ### Claim C3 -/

/-- C3: the wire error-rate field is the reciprocal 1/error truncated
toward zero (floor, for positive values) — witnessed by error rate 2/3,
whose reciprocal 3/2 encodes as 1, not the nearest integer 2 — and `load`
reconstructs the error rate as exactly 1 divided by that 16-bit field. -/
theorem C3_error_rate_reciprocal (f : Filter) (buf : List Nat)
    (hf : Wf f) (hrange : ⌊(1 : ℚ) / f.error⌋ < 2 ^ 16)
    (h9 : ¬buf.length < 9)
    (hck : compute_checksum (buf.drop 8) = rd16 buf) :
    rd16 ((dump f).drop 2) = (⌊(1 : ℚ) / f.error⌋).toNat ∧
    encErr (2 / 3) = 1 ∧ ⌈(1 : ℚ) / (2 / 3)⌉ = 2 ∧
    load buf = filterInit (toInt32 (rd32 (buf.drop 4)))
      ((1 : ℚ) / (rd16 (buf.drop 2) : ℚ)) (some (buf.drop 8)) := by
  refine ⟨?_, encErr_twothirds, ?_, ?_⟩
  · rw [rd16_dump_drop2]
    unfold encErr
    omega
  · rw [Int.ceil_eq_iff] <;> norm_num
  · rw [load_delegates buf h9 hck]
    rfl

/-- Witness for C3 at the filter with error rate 2/3 and a valid 9-byte
buffer. -/
theorem C3_error_rate_reciprocal_witness :
    rd16 ((dump ⟨1, 2 / 3, 1, 1, 1, [0]⟩).drop 2) = 1 ∧
    load [0, 0, 0, 2, 0, 0, 0, 1, 0] =
      filterInit (toInt32 1) ((1 : ℚ) / (2 : ℚ)) (some [0]) := by
  have h := C3_error_rate_reciprocal ⟨1, 2 / 3, 1, 1, 1, [0]⟩
    [0, 0, 0, 2, 0, 0, 0, 1, 0]
    ⟨by norm_num, by norm_num, by norm_num, by simp, by norm_num, by norm_num,
      by norm_num, by norm_num⟩
    (by norm_num) (by decide) (by decide)
  refine ⟨?_, ?_⟩
  · rw [h.1]
    norm_num
  · rw [h.2.2.2]
    have hr32 : rd32 [0, 0, 0, 1, 0] = 1 := by decide
    have hr16 : rd16 [0, 2, 0, 0, 0, 1, 0] = 2 := by decide
    simp only [List.drop]
    rw [hr32, hr16]
    norm_num

/-! ### Claim C4 -/

/-- C4: the 16-bit checksum stored by `dump` is the CRC-32 of the payload
(the raw bit array; header excluded) folded by xoring its halves, and
`load` rejects with `ChecksumMismatch` exactly when the recomputed folded
CRC of the payload bytes differs from the stored field. -/
theorem C4_folded_crc (f : Filter) (buf : List Nat) (hf : Wf f)
    (h9 : ¬buf.length < 9) :
    rd16 (dump f) = (crc32 f.bf &&& 0xFFFF) ^^^ (crc32 f.bf >>> 16) ∧
    (dump f).drop 8 = f.bf ∧
    (load buf = .error .ChecksumMismatch ↔
      ((crc32 (buf.drop 8) &&& 0xFFFF) ^^^ (crc32 (buf.drop 8) >>> 16)) ≠ rd16 buf) := by
  refine ⟨rd16_dump f (compute_checksum_lt f.bf hf.2.2.2.1), dump_drop8 f, ?_⟩
  constructor
  · intro h hck
    rcases eq_or_ne (compute_checksum (buf.drop 8)) (rd16 buf) with he | he
    · rw [load_delegates buf h9 he] at h
      exact (filterInit_never_checksum_err _ _ _).1 (by simpa [instantiate_filter] using h)
    · exact he hck
  · intro hck
    exact load_checksum_mismatch buf h9 hck

/-- Witness for C4 at a concrete filter and a corrupted 9-byte buffer. -/
theorem C4_folded_crc_witness :
    rd16 (dump ⟨1, 1 / 2, 2, 1, 1, [0]⟩) =
      ((crc32 [0] &&& 0xFFFF) ^^^ (crc32 [0] >>> 16)) ∧
    load [0, 1, 0, 2, 0, 0, 0, 1, 0] = .error .ChecksumMismatch := by
  have h := C4_folded_crc ⟨1, 1 / 2, 2, 1, 1, [0]⟩ [0, 1, 0, 2, 0, 0, 0, 1, 0]
    ⟨by norm_num, by norm_num, by norm_num, by simp, by norm_num, by norm_num,
      by norm_num, by norm_num⟩ (by decide)
  exact ⟨h.1, h.2.2.mpr (by decide)⟩

/-! ### Claim C1 -/

theorem toInt32_toUInt32 (z : Int) (h1 : 1 ≤ z) (h2 : z < 2 ^ 31) :
    toInt32 (toUInt32 z) = z := by
  unfold toInt32 toUInt32
  split <;> omega

/-- C1 fails as stated: the filter validly constructed from capacity 1 and
error rate 2/3 does not survive `load (dump f)` — the truncated reciprocal
of 2/3 is 1, so `load` reconstructs error rate 1/1 = 1, which `bloom_init`
rejects as out of range, and no filter is returned. -/
theorem C1_roundtrip_counterexample :
    (filterInit 1 (2 / 3) none).map (fun f => (load (dump f)).isOk) =
      .ok false := by
  rw [filterInit_eval_twothirds]
  have hdump : dump ⟨1, 2 / 3, 1, 1, 1, [0]⟩ =
      [0, 0, 0, 1, 0, 0, 0, 1, 0] := by
    rw [dump_as_cons]
    have h0 : compute_checksum [0] = 0 := by decide
    have h1 : encErr (2 / 3) = 1 := encErr_twothirds
    have h2 : toUInt32 1 = 1 := by decide
    simp only
    rw [h0, h1, h2]
    decide
  have hload : load [0, 0, 0, 1, 0, 0, 0, 1, 0] = .error .InvalidParameters := by
    rw [load_delegates _ (by decide) (by decide)]
    unfold instantiate_filter
    refine filterInit_invalid _ _ _ (Or.inr (Or.inr ?_))
    have hr : rd16 (List.drop 2 [0, 0, 0, 1, 0, 0, 0, 1, 0]) = 1 := by decide
    rw [hr]
    norm_num
  simp only [Except.map, hdump, hload]
  rfl

/-- C1 (amended): `load (dump f)` succeeds with a byte-identical bit array
and the original capacity provided the capacity fits in a C `int` and the
truncated error-rate reciprocal is at least 2 and re-derives the original
byte length; otherwise the re-derivation can change the expected length
(or the reconstructed rate can leave (0,1)) and `load` fails. -/
theorem C1_roundtrip_amended (f : Filter) (hf : Wf f)
    (hcard : f.entries < 2 ^ 31)
    (herr2 : 2 ≤ encErr f.error)
    (hbytes : bloomBytes f.entries ((1 : ℚ) / (encErr f.error : ℚ)) = f.bytesLen) :
    ∃ g, load (dump f) = .ok g ∧ g.bf = f.bf ∧ g.entries = f.entries := by
  obtain ⟨hbits, hby, hlen, hbnd, hent, h0, h1, hh⟩ := hf
  have herr16 := encErr_lt f.error
  rw [load_dump_eq f ⟨hbits, hby, hlen, hbnd, hent, h0, h1, hh⟩]
  unfold instantiate_filter
  rw [toInt32_toUInt32 f.entries hent hcard]
  have hvalid : ¬(f.entries < 1 ∨ (1 : ℚ) / (encErr f.error : ℚ) ≤ 0 ∨
      1 ≤ (1 : ℚ) / (encErr f.error : ℚ)) := by
    push_neg
    have h2 : (2 : ℚ) ≤ (encErr f.error : ℚ) := by
      exact_mod_cast herr2
    refine ⟨hent, by positivity, ?_⟩
    rw [div_lt_one (by linarith)]
    linarith
  rw [filterInit_ok_some _ _ _ hvalid (by rw [hbytes]; exact hlen)]
  exact ⟨_, rfl, rfl, rfl⟩

/-- Witness for the amended C1 at the filter constructed from capacity 1,
error rate 1/2, whose reciprocal 2 re-derives the same single-byte
array. -/
theorem C1_roundtrip_amended_witness :
    ∃ g, load (dump ⟨1, 1 / 2, 2, 1, 1, [0]⟩) = .ok g ∧
      g.bf = [0] ∧ g.entries = 1 :=
  C1_roundtrip_amended ⟨1, 1 / 2, 2, 1, 1, [0]⟩
    ⟨by norm_num, by norm_num, by norm_num, by simp, by norm_num, by norm_num,
      by norm_num, by norm_num⟩
    (by norm_num)
    (by rw [encErr_half])
    (by rw [encErr_half]; push_cast; exact bloomBytes_one_half)


/-! ### Claim C5 -/

/-- Branch-free form of one CRC-32 round, used for bulk evaluation: the
conditional xor of the polynomial is a multiplication by the low bit. -/
def crcRoundA (c : Nat) : Nat :=
  (c / 2) ^^^ (0xEDB88320 * (c % 2))

/-- Branch-free absorption of a zero byte. -/
def crcByteA (c : Nat) : Nat :=
  crcRoundA (crcRoundA (crcRoundA (crcRoundA
    (crcRoundA (crcRoundA (crcRoundA (crcRoundA c)))))))

theorem crcRound_eq_arith (c : Nat) : crcRound c = crcRoundA c := by
  rcases Nat.mod_two_eq_zero_or_one c with h | h <;>
    simp [crcRound, crcRoundA, h]

theorem crcByte_zero_eq_arith (c : Nat) : crcByte c 0 = crcByteA c := by
  unfold crcByte crcByteA
  simp only [Nat.xor_zero, crcRound_eq_arith]

theorem crc32Acc_replicate_zero (n : Nat) (c : Nat) :
    crc32Acc c (List.replicate n 0) = crcByteA^[n] c := by
  induction n generalizing c with
  | zero => rfl
  | succ m ih =>
      rw [List.replicate_succ]
      show crc32Acc (crcByte c 0) (List.replicate m 0) = crcByteA^[m + 1] c
      rw [ih (crcByte c 0), crcByte_zero_eq_arith,
        Function.iterate_succ_apply]

theorem crcByteA_zero : crcByteA 0 = 0 := by decide

theorem checksum_replicate_zero (n : Nat) :
    compute_checksum (List.replicate n 0) = 0 := by
  unfold compute_checksum crc32
  rw [crc32Acc_replicate_zero, Function.iterate_fixed crcByteA_zero]
  decide

set_option maxRecDepth 400000 in
set_option maxHeartbeats 10000000 in
/-- Bulk evaluation of 21503 zero-byte CRC steps, in chunks. -/
theorem crc_long_run : crcByteA^[21503] 1994146192 = 2675023729 := by
  have s0 : crcByteA^[80] 1994146192 = 1909827477 := by decide
  have s1 : crcByteA^[80] 1909827477 = 953487096 := by decide
  have s2 : crcByteA^[80] 953487096 = 1992408467 := by decide
  have s3 : crcByteA^[80] 1992408467 = 61273459 := by decide
  have s4 : crcByteA^[80] 61273459 = 1413423105 := by decide
  have s5 : crcByteA^[80] 1413423105 = 2882794409 := by decide
  have s6 : crcByteA^[80] 2882794409 = 4213278683 := by decide
  have s7 : crcByteA^[80] 4213278683 = 3544848174 := by decide
  have s8 : crcByteA^[80] 3544848174 = 308097953 := by decide
  have s9 : crcByteA^[80] 308097953 = 1576079112 := by decide
  have s10 : crcByteA^[80] 1576079112 = 2700873040 := by decide
  have s11 : crcByteA^[80] 2700873040 = 4097683577 := by decide
  have s12 : crcByteA^[80] 4097683577 = 532031697 := by decide
  have s13 : crcByteA^[80] 532031697 = 3754614318 := by decide
  have s14 : crcByteA^[80] 3754614318 = 3645259874 := by decide
  have s15 : crcByteA^[80] 3645259874 = 3281357498 := by decide
  have s16 : crcByteA^[80] 3281357498 = 458636506 := by decide
  have s17 : crcByteA^[80] 458636506 = 3895536856 := by decide
  have s18 : crcByteA^[80] 3895536856 = 2820417450 := by decide
  have s19 : crcByteA^[80] 2820417450 = 2900608076 := by decide
  have s20 : crcByteA^[80] 2900608076 = 278257111 := by decide
  have s21 : crcByteA^[80] 278257111 = 2111695320 := by decide
  have s22 : crcByteA^[80] 2111695320 = 1102320883 := by decide
  have s23 : crcByteA^[80] 1102320883 = 2823145943 := by decide
  have s24 : crcByteA^[80] 2823145943 = 1453858255 := by decide
  have s25 : crcByteA^[80] 1453858255 = 4057256911 := by decide
  have s26 : crcByteA^[80] 4057256911 = 922604851 := by decide
  have s27 : crcByteA^[80] 922604851 = 4056816024 := by decide
  have s28 : crcByteA^[80] 4056816024 = 443908337 := by decide
  have s29 : crcByteA^[80] 443908337 = 2509783532 := by decide
  have s30 : crcByteA^[80] 2509783532 = 2818873062 := by decide
  have s31 : crcByteA^[80] 2818873062 = 1983141912 := by decide
  have s32 : crcByteA^[80] 1983141912 = 380895501 := by decide
  have s33 : crcByteA^[80] 380895501 = 332548541 := by decide
  have s34 : crcByteA^[80] 332548541 = 682124076 := by decide
  have s35 : crcByteA^[80] 682124076 = 1120382152 := by decide
  have s36 : crcByteA^[80] 1120382152 = 1741963901 := by decide
  have s37 : crcByteA^[80] 1741963901 = 1475416636 := by decide
  have s38 : crcByteA^[80] 1475416636 = 4087334750 := by decide
  have s39 : crcByteA^[80] 4087334750 = 3013030333 := by decide
  have s40 : crcByteA^[80] 3013030333 = 1393830937 := by decide
  have s41 : crcByteA^[80] 1393830937 = 2392684202 := by decide
  have s42 : crcByteA^[80] 2392684202 = 873968178 := by decide
  have s43 : crcByteA^[80] 873968178 = 1848765700 := by decide
  have s44 : crcByteA^[80] 1848765700 = 3005566961 := by decide
  have s45 : crcByteA^[80] 3005566961 = 3877914882 := by decide
  have s46 : crcByteA^[80] 3877914882 = 225442222 := by decide
  have s47 : crcByteA^[80] 225442222 = 980204051 := by decide
  have s48 : crcByteA^[80] 980204051 = 381868284 := by decide
  have s49 : crcByteA^[80] 381868284 = 1190429025 := by decide
  have s50 : crcByteA^[80] 1190429025 = 4230955511 := by decide
  have s51 : crcByteA^[80] 4230955511 = 30949832 := by decide
  have s52 : crcByteA^[80] 30949832 = 1775783272 := by decide
  have s53 : crcByteA^[80] 1775783272 = 2819247329 := by decide
  have s54 : crcByteA^[80] 2819247329 = 3649172502 := by decide
  have s55 : crcByteA^[80] 3649172502 = 382770759 := by decide
  have s56 : crcByteA^[80] 382770759 = 2966459873 := by decide
  have s57 : crcByteA^[80] 2966459873 = 3363495450 := by decide
  have s58 : crcByteA^[80] 3363495450 = 3605963788 := by decide
  have s59 : crcByteA^[80] 3605963788 = 3296347082 := by decide
  have s60 : crcByteA^[80] 3296347082 = 301851669 := by decide
  have s61 : crcByteA^[80] 301851669 = 3482817085 := by decide
  have s62 : crcByteA^[80] 3482817085 = 4188709264 := by decide
  have s63 : crcByteA^[80] 4188709264 = 3173520524 := by decide
  have s64 : crcByteA^[80] 3173520524 = 2346904766 := by decide
  have s65 : crcByteA^[80] 2346904766 = 193930322 := by decide
  have s66 : crcByteA^[80] 193930322 = 634248757 := by decide
  have s67 : crcByteA^[80] 634248757 = 3536564784 := by decide
  have s68 : crcByteA^[80] 3536564784 = 459646878 := by decide
  have s69 : crcByteA^[80] 459646878 = 2361119120 := by decide
  have s70 : crcByteA^[80] 2361119120 = 3808308336 := by decide
  have s71 : crcByteA^[80] 3808308336 = 4060591415 := by decide
  have s72 : crcByteA^[80] 4060591415 = 2418458309 := by decide
  have s73 : crcByteA^[80] 2418458309 = 1311552883 := by decide
  have s74 : crcByteA^[80] 1311552883 = 3670044344 := by decide
  have s75 : crcByteA^[80] 3670044344 = 2923080666 := by decide
  have s76 : crcByteA^[80] 2923080666 = 1362439862 := by decide
  have s77 : crcByteA^[80] 1362439862 = 2635964994 := by decide
  have s78 : crcByteA^[80] 2635964994 = 1358818885 := by decide
  have s79 : crcByteA^[80] 1358818885 = 416294900 := by decide
  have s80 : crcByteA^[80] 416294900 = 1623313917 := by decide
  have s81 : crcByteA^[80] 1623313917 = 1493259156 := by decide
  have s82 : crcByteA^[80] 1493259156 = 3013208607 := by decide
  have s83 : crcByteA^[80] 3013208607 = 565459373 := by decide
  have s84 : crcByteA^[80] 565459373 = 2085725343 := by decide
  have s85 : crcByteA^[80] 2085725343 = 3561706615 := by decide
  have s86 : crcByteA^[80] 3561706615 = 3530517507 := by decide
  have s87 : crcByteA^[80] 3530517507 = 3040788011 := by decide
  have s88 : crcByteA^[80] 3040788011 = 3653126681 := by decide
  have s89 : crcByteA^[80] 3653126681 = 1704035998 := by decide
  have s90 : crcByteA^[80] 1704035998 = 4211501411 := by decide
  have s91 : crcByteA^[80] 4211501411 = 1622240413 := by decide
  have s92 : crcByteA^[80] 1622240413 = 1999263537 := by decide
  have s93 : crcByteA^[80] 1999263537 = 953907741 := by decide
  have s94 : crcByteA^[80] 953907741 = 1954105259 := by decide
  have s95 : crcByteA^[80] 1954105259 = 394955822 := by decide
  have s96 : crcByteA^[80] 394955822 = 2394197708 := by decide
  have s97 : crcByteA^[80] 2394197708 = 2084403594 := by decide
  have s98 : crcByteA^[80] 2084403594 = 3778271530 := by decide
  have s99 : crcByteA^[80] 3778271530 = 2270734654 := by decide
  have s100 : crcByteA^[80] 2270734654 = 1236759080 := by decide
  have s101 : crcByteA^[80] 1236759080 = 1603578292 := by decide
  have s102 : crcByteA^[80] 1603578292 = 3173966973 := by decide
  have s103 : crcByteA^[80] 3173966973 = 133008088 := by decide
  have s104 : crcByteA^[80] 133008088 = 2756319532 := by decide
  have s105 : crcByteA^[80] 2756319532 = 3210306417 := by decide
  have s106 : crcByteA^[80] 3210306417 = 2164660257 := by decide
  have s107 : crcByteA^[80] 2164660257 = 2655534962 := by decide
  have s108 : crcByteA^[80] 2655534962 = 579843182 := by decide
  have s109 : crcByteA^[80] 579843182 = 2585965382 := by decide
  have s110 : crcByteA^[80] 2585965382 = 2386244141 := by decide
  have s111 : crcByteA^[80] 2386244141 = 2076861998 := by decide
  have s112 : crcByteA^[80] 2076861998 = 2843141443 := by decide
  have s113 : crcByteA^[80] 2843141443 = 1351022398 := by decide
  have s114 : crcByteA^[80] 1351022398 = 3138208022 := by decide
  have s115 : crcByteA^[80] 3138208022 = 728353697 := by decide
  have s116 : crcByteA^[80] 728353697 = 3062030301 := by decide
  have s117 : crcByteA^[80] 3062030301 = 1343475022 := by decide
  have s118 : crcByteA^[80] 1343475022 = 4223504533 := by decide
  have s119 : crcByteA^[80] 4223504533 = 673627250 := by decide
  have s120 : crcByteA^[80] 673627250 = 3000615159 := by decide
  have s121 : crcByteA^[80] 3000615159 = 773539794 := by decide
  have s122 : crcByteA^[80] 773539794 = 2971217054 := by decide
  have s123 : crcByteA^[80] 2971217054 = 1949579076 := by decide
  have s124 : crcByteA^[80] 1949579076 = 948057433 := by decide
  have s125 : crcByteA^[80] 948057433 = 1237512681 := by decide
  have s126 : crcByteA^[80] 1237512681 = 1955622419 := by decide
  have s127 : crcByteA^[80] 1955622419 = 193074202 := by decide
  have s128 : crcByteA^[80] 193074202 = 806439292 := by decide
  have s129 : crcByteA^[80] 806439292 = 3953486664 := by decide
  have s130 : crcByteA^[80] 3953486664 = 2070549553 := by decide
  have s131 : crcByteA^[80] 2070549553 = 2016912494 := by decide
  have s132 : crcByteA^[80] 2016912494 = 758616575 := by decide
  have s133 : crcByteA^[80] 758616575 = 3834933865 := by decide
  have s134 : crcByteA^[80] 3834933865 = 2417410005 := by decide
  have s135 : crcByteA^[80] 2417410005 = 2834610521 := by decide
  have s136 : crcByteA^[80] 2834610521 = 4196128240 := by decide
  have s137 : crcByteA^[80] 4196128240 = 1272273633 := by decide
  have s138 : crcByteA^[80] 1272273633 = 1047119945 := by decide
  have s139 : crcByteA^[80] 1047119945 = 3449572083 := by decide
  have s140 : crcByteA^[80] 3449572083 = 1978819851 := by decide
  have s141 : crcByteA^[80] 1978819851 = 1327493535 := by decide
  have s142 : crcByteA^[80] 1327493535 = 3227985128 := by decide
  have s143 : crcByteA^[80] 3227985128 = 3849064754 := by decide
  have s144 : crcByteA^[80] 3849064754 = 1016815846 := by decide
  have s145 : crcByteA^[80] 1016815846 = 2614466736 := by decide
  have s146 : crcByteA^[80] 2614466736 = 866916123 := by decide
  have s147 : crcByteA^[80] 866916123 = 3855912625 := by decide
  have s148 : crcByteA^[80] 3855912625 = 1772786051 := by decide
  have s149 : crcByteA^[80] 1772786051 = 3260287980 := by decide
  have s150 : crcByteA^[80] 3260287980 = 2001025734 := by decide
  have s151 : crcByteA^[80] 2001025734 = 1219852322 := by decide
  have s152 : crcByteA^[80] 1219852322 = 3264574158 := by decide
  have s153 : crcByteA^[80] 3264574158 = 2689207097 := by decide
  have s154 : crcByteA^[80] 2689207097 = 2297750271 := by decide
  have s155 : crcByteA^[80] 2297750271 = 23456388 := by decide
  have s156 : crcByteA^[80] 23456388 = 3251611790 := by decide
  have s157 : crcByteA^[80] 3251611790 = 3775840926 := by decide
  have s158 : crcByteA^[80] 3775840926 = 390145930 := by decide
  have s159 : crcByteA^[80] 390145930 = 1348163581 := by decide
  have s160 : crcByteA^[80] 1348163581 = 870663062 := by decide
  have s161 : crcByteA^[80] 870663062 = 3644349365 := by decide
  have s162 : crcByteA^[80] 3644349365 = 562091679 := by decide
  have s163 : crcByteA^[80] 562091679 = 2453146176 := by decide
  have s164 : crcByteA^[80] 2453146176 = 1109213034 := by decide
  have s165 : crcByteA^[80] 1109213034 = 1225431807 := by decide
  have s166 : crcByteA^[80] 1225431807 = 1982105270 := by decide
  have s167 : crcByteA^[80] 1982105270 = 1888917561 := by decide
  have s168 : crcByteA^[80] 1888917561 = 630127739 := by decide
  have s169 : crcByteA^[80] 630127739 = 1103329764 := by decide
  have s170 : crcByteA^[80] 1103329764 = 474488627 := by decide
  have s171 : crcByteA^[80] 474488627 = 2355499513 := by decide
  have s172 : crcByteA^[80] 2355499513 = 3387338221 := by decide
  have s173 : crcByteA^[80] 3387338221 = 2255038332 := by decide
  have s174 : crcByteA^[80] 2255038332 = 1609066189 := by decide
  have s175 : crcByteA^[80] 1609066189 = 1716257687 := by decide
  have s176 : crcByteA^[80] 1716257687 = 3920901562 := by decide
  have s177 : crcByteA^[80] 3920901562 = 3349483726 := by decide
  have s178 : crcByteA^[80] 3349483726 = 1945596724 := by decide
  have s179 : crcByteA^[80] 1945596724 = 2183573490 := by decide
  have s180 : crcByteA^[80] 2183573490 = 4006253298 := by decide
  have s181 : crcByteA^[80] 4006253298 = 2438967026 := by decide
  have s182 : crcByteA^[80] 2438967026 = 2148064546 := by decide
  have s183 : crcByteA^[80] 2148064546 = 4277812761 := by decide
  have s184 : crcByteA^[80] 4277812761 = 1249672154 := by decide
  have s185 : crcByteA^[80] 1249672154 = 3761863549 := by decide
  have s186 : crcByteA^[80] 3761863549 = 41484417 := by decide
  have s187 : crcByteA^[80] 41484417 = 2555973229 := by decide
  have s188 : crcByteA^[80] 2555973229 = 2801559028 := by decide
  have s189 : crcByteA^[80] 2801559028 = 629726054 := by decide
  have s190 : crcByteA^[80] 629726054 = 1424636891 := by decide
  have s191 : crcByteA^[80] 1424636891 = 2535261849 := by decide
  have s192 : crcByteA^[80] 2535261849 = 1865967860 := by decide
  have s193 : crcByteA^[80] 1865967860 = 2765006715 := by decide
  have s194 : crcByteA^[80] 2765006715 = 3650676656 := by decide
  have s195 : crcByteA^[80] 3650676656 = 3143231974 := by decide
  have s196 : crcByteA^[80] 3143231974 = 2199931362 := by decide
  have s197 : crcByteA^[80] 2199931362 = 648891460 := by decide
  have s198 : crcByteA^[80] 648891460 = 3416203438 := by decide
  have s199 : crcByteA^[80] 3416203438 = 2487560666 := by decide
  have s200 : crcByteA^[80] 2487560666 = 3795886754 := by decide
  have s201 : crcByteA^[80] 3795886754 = 2301243080 := by decide
  have s202 : crcByteA^[80] 2301243080 = 604858592 := by decide
  have s203 : crcByteA^[80] 604858592 = 706466290 := by decide
  have s204 : crcByteA^[80] 706466290 = 2800291669 := by decide
  have s205 : crcByteA^[80] 2800291669 = 2172877359 := by decide
  have s206 : crcByteA^[80] 2172877359 = 4256950669 := by decide
  have s207 : crcByteA^[80] 4256950669 = 3296571376 := by decide
  have s208 : crcByteA^[80] 3296571376 = 2870924245 := by decide
  have s209 : crcByteA^[80] 2870924245 = 1828676104 := by decide
  have s210 : crcByteA^[80] 1828676104 = 2922873005 := by decide
  have s211 : crcByteA^[80] 2922873005 = 1356362017 := by decide
  have s212 : crcByteA^[80] 1356362017 = 5121951 := by decide
  have s213 : crcByteA^[80] 5121951 = 3091052119 := by decide
  have s214 : crcByteA^[80] 3091052119 = 563362706 := by decide
  have s215 : crcByteA^[80] 563362706 = 462512574 := by decide
  have s216 : crcByteA^[80] 462512574 = 1315058985 := by decide
  have s217 : crcByteA^[80] 1315058985 = 3501625226 := by decide
  have s218 : crcByteA^[80] 3501625226 = 234463716 := by decide
  have s219 : crcByteA^[80] 234463716 = 1107723672 := by decide
  have s220 : crcByteA^[80] 1107723672 = 3937022544 := by decide
  have s221 : crcByteA^[80] 3937022544 = 187952915 := by decide
  have s222 : crcByteA^[80] 187952915 = 2099925034 := by decide
  have s223 : crcByteA^[80] 2099925034 = 762873997 := by decide
  have s224 : crcByteA^[80] 762873997 = 1310057546 := by decide
  have s225 : crcByteA^[80] 1310057546 = 2741530251 := by decide
  have s226 : crcByteA^[80] 2741530251 = 3150703896 := by decide
  have s227 : crcByteA^[80] 3150703896 = 3274603601 := by decide
  have s228 : crcByteA^[80] 3274603601 = 3716915568 := by decide
  have s229 : crcByteA^[80] 3716915568 = 2347656777 := by decide
  have s230 : crcByteA^[80] 2347656777 = 779610919 := by decide
  have s231 : crcByteA^[80] 779610919 = 3045644767 := by decide
  have s232 : crcByteA^[80] 3045644767 = 848407947 := by decide
  have s233 : crcByteA^[80] 848407947 = 3881799462 := by decide
  have s234 : crcByteA^[80] 3881799462 = 3271103194 := by decide
  have s235 : crcByteA^[80] 3271103194 = 983215078 := by decide
  have s236 : crcByteA^[80] 983215078 = 3137921945 := by decide
  have s237 : crcByteA^[80] 3137921945 = 651402853 := by decide
  have s238 : crcByteA^[80] 651402853 = 1163446843 := by decide
  have s239 : crcByteA^[80] 1163446843 = 2826279210 := by decide
  have s240 : crcByteA^[80] 2826279210 = 3313406012 := by decide
  have s241 : crcByteA^[80] 3313406012 = 1035298774 := by decide
  have s242 : crcByteA^[80] 1035298774 = 3621285933 := by decide
  have s243 : crcByteA^[80] 3621285933 = 3039510312 := by decide
  have s244 : crcByteA^[80] 3039510312 = 1111722351 := by decide
  have s245 : crcByteA^[80] 1111722351 = 2682333791 := by decide
  have s246 : crcByteA^[80] 2682333791 = 4097944202 := by decide
  have s247 : crcByteA^[80] 4097944202 = 3571599320 := by decide
  have s248 : crcByteA^[80] 3571599320 = 1445138680 := by decide
  have s249 : crcByteA^[80] 1445138680 = 1051833607 := by decide
  have s250 : crcByteA^[80] 1051833607 = 2384591491 := by decide
  have s251 : crcByteA^[80] 2384591491 = 3134466060 := by decide
  have s252 : crcByteA^[80] 3134466060 = 3372839548 := by decide
  have s253 : crcByteA^[80] 3372839548 = 559583228 := by decide
  have s254 : crcByteA^[80] 559583228 = 1943059673 := by decide
  have s255 : crcByteA^[80] 1943059673 = 2731868456 := by decide
  have s256 : crcByteA^[80] 2731868456 = 3620152039 := by decide
  have s257 : crcByteA^[80] 3620152039 = 3173480262 := by decide
  have s258 : crcByteA^[80] 3173480262 = 3205243938 := by decide
  have s259 : crcByteA^[80] 3205243938 = 61451624 := by decide
  have s260 : crcByteA^[80] 61451624 = 2316852055 := by decide
  have s261 : crcByteA^[80] 2316852055 = 383739715 := by decide
  have s262 : crcByteA^[80] 383739715 = 3553091370 := by decide
  have s263 : crcByteA^[80] 3553091370 = 3617597959 := by decide
  have s264 : crcByteA^[80] 3617597959 = 1070627662 := by decide
  have s265 : crcByteA^[80] 1070627662 = 328531991 := by decide
  have s266 : crcByteA^[80] 328531991 = 2074270425 := by decide
  have s267 : crcByteA^[80] 2074270425 = 2977371304 := by decide
  have s268 : crcByteA^[63] 2977371304 = 2675023729 := by decide
  calc crcByteA^[21503] 1994146192 = crcByteA^[21423] 1909827477 := by rw [show (21503 : Nat) = 21423 + 80 from rfl, Function.iterate_add_apply, s0]
    _ = crcByteA^[21343] 953487096 := by rw [show (21423 : Nat) = 21343 + 80 from rfl, Function.iterate_add_apply, s1]
    _ = crcByteA^[21263] 1992408467 := by rw [show (21343 : Nat) = 21263 + 80 from rfl, Function.iterate_add_apply, s2]
    _ = crcByteA^[21183] 61273459 := by rw [show (21263 : Nat) = 21183 + 80 from rfl, Function.iterate_add_apply, s3]
    _ = crcByteA^[21103] 1413423105 := by rw [show (21183 : Nat) = 21103 + 80 from rfl, Function.iterate_add_apply, s4]
    _ = crcByteA^[21023] 2882794409 := by rw [show (21103 : Nat) = 21023 + 80 from rfl, Function.iterate_add_apply, s5]
    _ = crcByteA^[20943] 4213278683 := by rw [show (21023 : Nat) = 20943 + 80 from rfl, Function.iterate_add_apply, s6]
    _ = crcByteA^[20863] 3544848174 := by rw [show (20943 : Nat) = 20863 + 80 from rfl, Function.iterate_add_apply, s7]
    _ = crcByteA^[20783] 308097953 := by rw [show (20863 : Nat) = 20783 + 80 from rfl, Function.iterate_add_apply, s8]
    _ = crcByteA^[20703] 1576079112 := by rw [show (20783 : Nat) = 20703 + 80 from rfl, Function.iterate_add_apply, s9]
    _ = crcByteA^[20623] 2700873040 := by rw [show (20703 : Nat) = 20623 + 80 from rfl, Function.iterate_add_apply, s10]
    _ = crcByteA^[20543] 4097683577 := by rw [show (20623 : Nat) = 20543 + 80 from rfl, Function.iterate_add_apply, s11]
    _ = crcByteA^[20463] 532031697 := by rw [show (20543 : Nat) = 20463 + 80 from rfl, Function.iterate_add_apply, s12]
    _ = crcByteA^[20383] 3754614318 := by rw [show (20463 : Nat) = 20383 + 80 from rfl, Function.iterate_add_apply, s13]
    _ = crcByteA^[20303] 3645259874 := by rw [show (20383 : Nat) = 20303 + 80 from rfl, Function.iterate_add_apply, s14]
    _ = crcByteA^[20223] 3281357498 := by rw [show (20303 : Nat) = 20223 + 80 from rfl, Function.iterate_add_apply, s15]
    _ = crcByteA^[20143] 458636506 := by rw [show (20223 : Nat) = 20143 + 80 from rfl, Function.iterate_add_apply, s16]
    _ = crcByteA^[20063] 3895536856 := by rw [show (20143 : Nat) = 20063 + 80 from rfl, Function.iterate_add_apply, s17]
    _ = crcByteA^[19983] 2820417450 := by rw [show (20063 : Nat) = 19983 + 80 from rfl, Function.iterate_add_apply, s18]
    _ = crcByteA^[19903] 2900608076 := by rw [show (19983 : Nat) = 19903 + 80 from rfl, Function.iterate_add_apply, s19]
    _ = crcByteA^[19823] 278257111 := by rw [show (19903 : Nat) = 19823 + 80 from rfl, Function.iterate_add_apply, s20]
    _ = crcByteA^[19743] 2111695320 := by rw [show (19823 : Nat) = 19743 + 80 from rfl, Function.iterate_add_apply, s21]
    _ = crcByteA^[19663] 1102320883 := by rw [show (19743 : Nat) = 19663 + 80 from rfl, Function.iterate_add_apply, s22]
    _ = crcByteA^[19583] 2823145943 := by rw [show (19663 : Nat) = 19583 + 80 from rfl, Function.iterate_add_apply, s23]
    _ = crcByteA^[19503] 1453858255 := by rw [show (19583 : Nat) = 19503 + 80 from rfl, Function.iterate_add_apply, s24]
    _ = crcByteA^[19423] 4057256911 := by rw [show (19503 : Nat) = 19423 + 80 from rfl, Function.iterate_add_apply, s25]
    _ = crcByteA^[19343] 922604851 := by rw [show (19423 : Nat) = 19343 + 80 from rfl, Function.iterate_add_apply, s26]
    _ = crcByteA^[19263] 4056816024 := by rw [show (19343 : Nat) = 19263 + 80 from rfl, Function.iterate_add_apply, s27]
    _ = crcByteA^[19183] 443908337 := by rw [show (19263 : Nat) = 19183 + 80 from rfl, Function.iterate_add_apply, s28]
    _ = crcByteA^[19103] 2509783532 := by rw [show (19183 : Nat) = 19103 + 80 from rfl, Function.iterate_add_apply, s29]
    _ = crcByteA^[19023] 2818873062 := by rw [show (19103 : Nat) = 19023 + 80 from rfl, Function.iterate_add_apply, s30]
    _ = crcByteA^[18943] 1983141912 := by rw [show (19023 : Nat) = 18943 + 80 from rfl, Function.iterate_add_apply, s31]
    _ = crcByteA^[18863] 380895501 := by rw [show (18943 : Nat) = 18863 + 80 from rfl, Function.iterate_add_apply, s32]
    _ = crcByteA^[18783] 332548541 := by rw [show (18863 : Nat) = 18783 + 80 from rfl, Function.iterate_add_apply, s33]
    _ = crcByteA^[18703] 682124076 := by rw [show (18783 : Nat) = 18703 + 80 from rfl, Function.iterate_add_apply, s34]
    _ = crcByteA^[18623] 1120382152 := by rw [show (18703 : Nat) = 18623 + 80 from rfl, Function.iterate_add_apply, s35]
    _ = crcByteA^[18543] 1741963901 := by rw [show (18623 : Nat) = 18543 + 80 from rfl, Function.iterate_add_apply, s36]
    _ = crcByteA^[18463] 1475416636 := by rw [show (18543 : Nat) = 18463 + 80 from rfl, Function.iterate_add_apply, s37]
    _ = crcByteA^[18383] 4087334750 := by rw [show (18463 : Nat) = 18383 + 80 from rfl, Function.iterate_add_apply, s38]
    _ = crcByteA^[18303] 3013030333 := by rw [show (18383 : Nat) = 18303 + 80 from rfl, Function.iterate_add_apply, s39]
    _ = crcByteA^[18223] 1393830937 := by rw [show (18303 : Nat) = 18223 + 80 from rfl, Function.iterate_add_apply, s40]
    _ = crcByteA^[18143] 2392684202 := by rw [show (18223 : Nat) = 18143 + 80 from rfl, Function.iterate_add_apply, s41]
    _ = crcByteA^[18063] 873968178 := by rw [show (18143 : Nat) = 18063 + 80 from rfl, Function.iterate_add_apply, s42]
    _ = crcByteA^[17983] 1848765700 := by rw [show (18063 : Nat) = 17983 + 80 from rfl, Function.iterate_add_apply, s43]
    _ = crcByteA^[17903] 3005566961 := by rw [show (17983 : Nat) = 17903 + 80 from rfl, Function.iterate_add_apply, s44]
    _ = crcByteA^[17823] 3877914882 := by rw [show (17903 : Nat) = 17823 + 80 from rfl, Function.iterate_add_apply, s45]
    _ = crcByteA^[17743] 225442222 := by rw [show (17823 : Nat) = 17743 + 80 from rfl, Function.iterate_add_apply, s46]
    _ = crcByteA^[17663] 980204051 := by rw [show (17743 : Nat) = 17663 + 80 from rfl, Function.iterate_add_apply, s47]
    _ = crcByteA^[17583] 381868284 := by rw [show (17663 : Nat) = 17583 + 80 from rfl, Function.iterate_add_apply, s48]
    _ = crcByteA^[17503] 1190429025 := by rw [show (17583 : Nat) = 17503 + 80 from rfl, Function.iterate_add_apply, s49]
    _ = crcByteA^[17423] 4230955511 := by rw [show (17503 : Nat) = 17423 + 80 from rfl, Function.iterate_add_apply, s50]
    _ = crcByteA^[17343] 30949832 := by rw [show (17423 : Nat) = 17343 + 80 from rfl, Function.iterate_add_apply, s51]
    _ = crcByteA^[17263] 1775783272 := by rw [show (17343 : Nat) = 17263 + 80 from rfl, Function.iterate_add_apply, s52]
    _ = crcByteA^[17183] 2819247329 := by rw [show (17263 : Nat) = 17183 + 80 from rfl, Function.iterate_add_apply, s53]
    _ = crcByteA^[17103] 3649172502 := by rw [show (17183 : Nat) = 17103 + 80 from rfl, Function.iterate_add_apply, s54]
    _ = crcByteA^[17023] 382770759 := by rw [show (17103 : Nat) = 17023 + 80 from rfl, Function.iterate_add_apply, s55]
    _ = crcByteA^[16943] 2966459873 := by rw [show (17023 : Nat) = 16943 + 80 from rfl, Function.iterate_add_apply, s56]
    _ = crcByteA^[16863] 3363495450 := by rw [show (16943 : Nat) = 16863 + 80 from rfl, Function.iterate_add_apply, s57]
    _ = crcByteA^[16783] 3605963788 := by rw [show (16863 : Nat) = 16783 + 80 from rfl, Function.iterate_add_apply, s58]
    _ = crcByteA^[16703] 3296347082 := by rw [show (16783 : Nat) = 16703 + 80 from rfl, Function.iterate_add_apply, s59]
    _ = crcByteA^[16623] 301851669 := by rw [show (16703 : Nat) = 16623 + 80 from rfl, Function.iterate_add_apply, s60]
    _ = crcByteA^[16543] 3482817085 := by rw [show (16623 : Nat) = 16543 + 80 from rfl, Function.iterate_add_apply, s61]
    _ = crcByteA^[16463] 4188709264 := by rw [show (16543 : Nat) = 16463 + 80 from rfl, Function.iterate_add_apply, s62]
    _ = crcByteA^[16383] 3173520524 := by rw [show (16463 : Nat) = 16383 + 80 from rfl, Function.iterate_add_apply, s63]
    _ = crcByteA^[16303] 2346904766 := by rw [show (16383 : Nat) = 16303 + 80 from rfl, Function.iterate_add_apply, s64]
    _ = crcByteA^[16223] 193930322 := by rw [show (16303 : Nat) = 16223 + 80 from rfl, Function.iterate_add_apply, s65]
    _ = crcByteA^[16143] 634248757 := by rw [show (16223 : Nat) = 16143 + 80 from rfl, Function.iterate_add_apply, s66]
    _ = crcByteA^[16063] 3536564784 := by rw [show (16143 : Nat) = 16063 + 80 from rfl, Function.iterate_add_apply, s67]
    _ = crcByteA^[15983] 459646878 := by rw [show (16063 : Nat) = 15983 + 80 from rfl, Function.iterate_add_apply, s68]
    _ = crcByteA^[15903] 2361119120 := by rw [show (15983 : Nat) = 15903 + 80 from rfl, Function.iterate_add_apply, s69]
    _ = crcByteA^[15823] 3808308336 := by rw [show (15903 : Nat) = 15823 + 80 from rfl, Function.iterate_add_apply, s70]
    _ = crcByteA^[15743] 4060591415 := by rw [show (15823 : Nat) = 15743 + 80 from rfl, Function.iterate_add_apply, s71]
    _ = crcByteA^[15663] 2418458309 := by rw [show (15743 : Nat) = 15663 + 80 from rfl, Function.iterate_add_apply, s72]
    _ = crcByteA^[15583] 1311552883 := by rw [show (15663 : Nat) = 15583 + 80 from rfl, Function.iterate_add_apply, s73]
    _ = crcByteA^[15503] 3670044344 := by rw [show (15583 : Nat) = 15503 + 80 from rfl, Function.iterate_add_apply, s74]
    _ = crcByteA^[15423] 2923080666 := by rw [show (15503 : Nat) = 15423 + 80 from rfl, Function.iterate_add_apply, s75]
    _ = crcByteA^[15343] 1362439862 := by rw [show (15423 : Nat) = 15343 + 80 from rfl, Function.iterate_add_apply, s76]
    _ = crcByteA^[15263] 2635964994 := by rw [show (15343 : Nat) = 15263 + 80 from rfl, Function.iterate_add_apply, s77]
    _ = crcByteA^[15183] 1358818885 := by rw [show (15263 : Nat) = 15183 + 80 from rfl, Function.iterate_add_apply, s78]
    _ = crcByteA^[15103] 416294900 := by rw [show (15183 : Nat) = 15103 + 80 from rfl, Function.iterate_add_apply, s79]
    _ = crcByteA^[15023] 1623313917 := by rw [show (15103 : Nat) = 15023 + 80 from rfl, Function.iterate_add_apply, s80]
    _ = crcByteA^[14943] 1493259156 := by rw [show (15023 : Nat) = 14943 + 80 from rfl, Function.iterate_add_apply, s81]
    _ = crcByteA^[14863] 3013208607 := by rw [show (14943 : Nat) = 14863 + 80 from rfl, Function.iterate_add_apply, s82]
    _ = crcByteA^[14783] 565459373 := by rw [show (14863 : Nat) = 14783 + 80 from rfl, Function.iterate_add_apply, s83]
    _ = crcByteA^[14703] 2085725343 := by rw [show (14783 : Nat) = 14703 + 80 from rfl, Function.iterate_add_apply, s84]
    _ = crcByteA^[14623] 3561706615 := by rw [show (14703 : Nat) = 14623 + 80 from rfl, Function.iterate_add_apply, s85]
    _ = crcByteA^[14543] 3530517507 := by rw [show (14623 : Nat) = 14543 + 80 from rfl, Function.iterate_add_apply, s86]
    _ = crcByteA^[14463] 3040788011 := by rw [show (14543 : Nat) = 14463 + 80 from rfl, Function.iterate_add_apply, s87]
    _ = crcByteA^[14383] 3653126681 := by rw [show (14463 : Nat) = 14383 + 80 from rfl, Function.iterate_add_apply, s88]
    _ = crcByteA^[14303] 1704035998 := by rw [show (14383 : Nat) = 14303 + 80 from rfl, Function.iterate_add_apply, s89]
    _ = crcByteA^[14223] 4211501411 := by rw [show (14303 : Nat) = 14223 + 80 from rfl, Function.iterate_add_apply, s90]
    _ = crcByteA^[14143] 1622240413 := by rw [show (14223 : Nat) = 14143 + 80 from rfl, Function.iterate_add_apply, s91]
    _ = crcByteA^[14063] 1999263537 := by rw [show (14143 : Nat) = 14063 + 80 from rfl, Function.iterate_add_apply, s92]
    _ = crcByteA^[13983] 953907741 := by rw [show (14063 : Nat) = 13983 + 80 from rfl, Function.iterate_add_apply, s93]
    _ = crcByteA^[13903] 1954105259 := by rw [show (13983 : Nat) = 13903 + 80 from rfl, Function.iterate_add_apply, s94]
    _ = crcByteA^[13823] 394955822 := by rw [show (13903 : Nat) = 13823 + 80 from rfl, Function.iterate_add_apply, s95]
    _ = crcByteA^[13743] 2394197708 := by rw [show (13823 : Nat) = 13743 + 80 from rfl, Function.iterate_add_apply, s96]
    _ = crcByteA^[13663] 2084403594 := by rw [show (13743 : Nat) = 13663 + 80 from rfl, Function.iterate_add_apply, s97]
    _ = crcByteA^[13583] 3778271530 := by rw [show (13663 : Nat) = 13583 + 80 from rfl, Function.iterate_add_apply, s98]
    _ = crcByteA^[13503] 2270734654 := by rw [show (13583 : Nat) = 13503 + 80 from rfl, Function.iterate_add_apply, s99]
    _ = crcByteA^[13423] 1236759080 := by rw [show (13503 : Nat) = 13423 + 80 from rfl, Function.iterate_add_apply, s100]
    _ = crcByteA^[13343] 1603578292 := by rw [show (13423 : Nat) = 13343 + 80 from rfl, Function.iterate_add_apply, s101]
    _ = crcByteA^[13263] 3173966973 := by rw [show (13343 : Nat) = 13263 + 80 from rfl, Function.iterate_add_apply, s102]
    _ = crcByteA^[13183] 133008088 := by rw [show (13263 : Nat) = 13183 + 80 from rfl, Function.iterate_add_apply, s103]
    _ = crcByteA^[13103] 2756319532 := by rw [show (13183 : Nat) = 13103 + 80 from rfl, Function.iterate_add_apply, s104]
    _ = crcByteA^[13023] 3210306417 := by rw [show (13103 : Nat) = 13023 + 80 from rfl, Function.iterate_add_apply, s105]
    _ = crcByteA^[12943] 2164660257 := by rw [show (13023 : Nat) = 12943 + 80 from rfl, Function.iterate_add_apply, s106]
    _ = crcByteA^[12863] 2655534962 := by rw [show (12943 : Nat) = 12863 + 80 from rfl, Function.iterate_add_apply, s107]
    _ = crcByteA^[12783] 579843182 := by rw [show (12863 : Nat) = 12783 + 80 from rfl, Function.iterate_add_apply, s108]
    _ = crcByteA^[12703] 2585965382 := by rw [show (12783 : Nat) = 12703 + 80 from rfl, Function.iterate_add_apply, s109]
    _ = crcByteA^[12623] 2386244141 := by rw [show (12703 : Nat) = 12623 + 80 from rfl, Function.iterate_add_apply, s110]
    _ = crcByteA^[12543] 2076861998 := by rw [show (12623 : Nat) = 12543 + 80 from rfl, Function.iterate_add_apply, s111]
    _ = crcByteA^[12463] 2843141443 := by rw [show (12543 : Nat) = 12463 + 80 from rfl, Function.iterate_add_apply, s112]
    _ = crcByteA^[12383] 1351022398 := by rw [show (12463 : Nat) = 12383 + 80 from rfl, Function.iterate_add_apply, s113]
    _ = crcByteA^[12303] 3138208022 := by rw [show (12383 : Nat) = 12303 + 80 from rfl, Function.iterate_add_apply, s114]
    _ = crcByteA^[12223] 728353697 := by rw [show (12303 : Nat) = 12223 + 80 from rfl, Function.iterate_add_apply, s115]
    _ = crcByteA^[12143] 3062030301 := by rw [show (12223 : Nat) = 12143 + 80 from rfl, Function.iterate_add_apply, s116]
    _ = crcByteA^[12063] 1343475022 := by rw [show (12143 : Nat) = 12063 + 80 from rfl, Function.iterate_add_apply, s117]
    _ = crcByteA^[11983] 4223504533 := by rw [show (12063 : Nat) = 11983 + 80 from rfl, Function.iterate_add_apply, s118]
    _ = crcByteA^[11903] 673627250 := by rw [show (11983 : Nat) = 11903 + 80 from rfl, Function.iterate_add_apply, s119]
    _ = crcByteA^[11823] 3000615159 := by rw [show (11903 : Nat) = 11823 + 80 from rfl, Function.iterate_add_apply, s120]
    _ = crcByteA^[11743] 773539794 := by rw [show (11823 : Nat) = 11743 + 80 from rfl, Function.iterate_add_apply, s121]
    _ = crcByteA^[11663] 2971217054 := by rw [show (11743 : Nat) = 11663 + 80 from rfl, Function.iterate_add_apply, s122]
    _ = crcByteA^[11583] 1949579076 := by rw [show (11663 : Nat) = 11583 + 80 from rfl, Function.iterate_add_apply, s123]
    _ = crcByteA^[11503] 948057433 := by rw [show (11583 : Nat) = 11503 + 80 from rfl, Function.iterate_add_apply, s124]
    _ = crcByteA^[11423] 1237512681 := by rw [show (11503 : Nat) = 11423 + 80 from rfl, Function.iterate_add_apply, s125]
    _ = crcByteA^[11343] 1955622419 := by rw [show (11423 : Nat) = 11343 + 80 from rfl, Function.iterate_add_apply, s126]
    _ = crcByteA^[11263] 193074202 := by rw [show (11343 : Nat) = 11263 + 80 from rfl, Function.iterate_add_apply, s127]
    _ = crcByteA^[11183] 806439292 := by rw [show (11263 : Nat) = 11183 + 80 from rfl, Function.iterate_add_apply, s128]
    _ = crcByteA^[11103] 3953486664 := by rw [show (11183 : Nat) = 11103 + 80 from rfl, Function.iterate_add_apply, s129]
    _ = crcByteA^[11023] 2070549553 := by rw [show (11103 : Nat) = 11023 + 80 from rfl, Function.iterate_add_apply, s130]
    _ = crcByteA^[10943] 2016912494 := by rw [show (11023 : Nat) = 10943 + 80 from rfl, Function.iterate_add_apply, s131]
    _ = crcByteA^[10863] 758616575 := by rw [show (10943 : Nat) = 10863 + 80 from rfl, Function.iterate_add_apply, s132]
    _ = crcByteA^[10783] 3834933865 := by rw [show (10863 : Nat) = 10783 + 80 from rfl, Function.iterate_add_apply, s133]
    _ = crcByteA^[10703] 2417410005 := by rw [show (10783 : Nat) = 10703 + 80 from rfl, Function.iterate_add_apply, s134]
    _ = crcByteA^[10623] 2834610521 := by rw [show (10703 : Nat) = 10623 + 80 from rfl, Function.iterate_add_apply, s135]
    _ = crcByteA^[10543] 4196128240 := by rw [show (10623 : Nat) = 10543 + 80 from rfl, Function.iterate_add_apply, s136]
    _ = crcByteA^[10463] 1272273633 := by rw [show (10543 : Nat) = 10463 + 80 from rfl, Function.iterate_add_apply, s137]
    _ = crcByteA^[10383] 1047119945 := by rw [show (10463 : Nat) = 10383 + 80 from rfl, Function.iterate_add_apply, s138]
    _ = crcByteA^[10303] 3449572083 := by rw [show (10383 : Nat) = 10303 + 80 from rfl, Function.iterate_add_apply, s139]
    _ = crcByteA^[10223] 1978819851 := by rw [show (10303 : Nat) = 10223 + 80 from rfl, Function.iterate_add_apply, s140]
    _ = crcByteA^[10143] 1327493535 := by rw [show (10223 : Nat) = 10143 + 80 from rfl, Function.iterate_add_apply, s141]
    _ = crcByteA^[10063] 3227985128 := by rw [show (10143 : Nat) = 10063 + 80 from rfl, Function.iterate_add_apply, s142]
    _ = crcByteA^[9983] 3849064754 := by rw [show (10063 : Nat) = 9983 + 80 from rfl, Function.iterate_add_apply, s143]
    _ = crcByteA^[9903] 1016815846 := by rw [show (9983 : Nat) = 9903 + 80 from rfl, Function.iterate_add_apply, s144]
    _ = crcByteA^[9823] 2614466736 := by rw [show (9903 : Nat) = 9823 + 80 from rfl, Function.iterate_add_apply, s145]
    _ = crcByteA^[9743] 866916123 := by rw [show (9823 : Nat) = 9743 + 80 from rfl, Function.iterate_add_apply, s146]
    _ = crcByteA^[9663] 3855912625 := by rw [show (9743 : Nat) = 9663 + 80 from rfl, Function.iterate_add_apply, s147]
    _ = crcByteA^[9583] 1772786051 := by rw [show (9663 : Nat) = 9583 + 80 from rfl, Function.iterate_add_apply, s148]
    _ = crcByteA^[9503] 3260287980 := by rw [show (9583 : Nat) = 9503 + 80 from rfl, Function.iterate_add_apply, s149]
    _ = crcByteA^[9423] 2001025734 := by rw [show (9503 : Nat) = 9423 + 80 from rfl, Function.iterate_add_apply, s150]
    _ = crcByteA^[9343] 1219852322 := by rw [show (9423 : Nat) = 9343 + 80 from rfl, Function.iterate_add_apply, s151]
    _ = crcByteA^[9263] 3264574158 := by rw [show (9343 : Nat) = 9263 + 80 from rfl, Function.iterate_add_apply, s152]
    _ = crcByteA^[9183] 2689207097 := by rw [show (9263 : Nat) = 9183 + 80 from rfl, Function.iterate_add_apply, s153]
    _ = crcByteA^[9103] 2297750271 := by rw [show (9183 : Nat) = 9103 + 80 from rfl, Function.iterate_add_apply, s154]
    _ = crcByteA^[9023] 23456388 := by rw [show (9103 : Nat) = 9023 + 80 from rfl, Function.iterate_add_apply, s155]
    _ = crcByteA^[8943] 3251611790 := by rw [show (9023 : Nat) = 8943 + 80 from rfl, Function.iterate_add_apply, s156]
    _ = crcByteA^[8863] 3775840926 := by rw [show (8943 : Nat) = 8863 + 80 from rfl, Function.iterate_add_apply, s157]
    _ = crcByteA^[8783] 390145930 := by rw [show (8863 : Nat) = 8783 + 80 from rfl, Function.iterate_add_apply, s158]
    _ = crcByteA^[8703] 1348163581 := by rw [show (8783 : Nat) = 8703 + 80 from rfl, Function.iterate_add_apply, s159]
    _ = crcByteA^[8623] 870663062 := by rw [show (8703 : Nat) = 8623 + 80 from rfl, Function.iterate_add_apply, s160]
    _ = crcByteA^[8543] 3644349365 := by rw [show (8623 : Nat) = 8543 + 80 from rfl, Function.iterate_add_apply, s161]
    _ = crcByteA^[8463] 562091679 := by rw [show (8543 : Nat) = 8463 + 80 from rfl, Function.iterate_add_apply, s162]
    _ = crcByteA^[8383] 2453146176 := by rw [show (8463 : Nat) = 8383 + 80 from rfl, Function.iterate_add_apply, s163]
    _ = crcByteA^[8303] 1109213034 := by rw [show (8383 : Nat) = 8303 + 80 from rfl, Function.iterate_add_apply, s164]
    _ = crcByteA^[8223] 1225431807 := by rw [show (8303 : Nat) = 8223 + 80 from rfl, Function.iterate_add_apply, s165]
    _ = crcByteA^[8143] 1982105270 := by rw [show (8223 : Nat) = 8143 + 80 from rfl, Function.iterate_add_apply, s166]
    _ = crcByteA^[8063] 1888917561 := by rw [show (8143 : Nat) = 8063 + 80 from rfl, Function.iterate_add_apply, s167]
    _ = crcByteA^[7983] 630127739 := by rw [show (8063 : Nat) = 7983 + 80 from rfl, Function.iterate_add_apply, s168]
    _ = crcByteA^[7903] 1103329764 := by rw [show (7983 : Nat) = 7903 + 80 from rfl, Function.iterate_add_apply, s169]
    _ = crcByteA^[7823] 474488627 := by rw [show (7903 : Nat) = 7823 + 80 from rfl, Function.iterate_add_apply, s170]
    _ = crcByteA^[7743] 2355499513 := by rw [show (7823 : Nat) = 7743 + 80 from rfl, Function.iterate_add_apply, s171]
    _ = crcByteA^[7663] 3387338221 := by rw [show (7743 : Nat) = 7663 + 80 from rfl, Function.iterate_add_apply, s172]
    _ = crcByteA^[7583] 2255038332 := by rw [show (7663 : Nat) = 7583 + 80 from rfl, Function.iterate_add_apply, s173]
    _ = crcByteA^[7503] 1609066189 := by rw [show (7583 : Nat) = 7503 + 80 from rfl, Function.iterate_add_apply, s174]
    _ = crcByteA^[7423] 1716257687 := by rw [show (7503 : Nat) = 7423 + 80 from rfl, Function.iterate_add_apply, s175]
    _ = crcByteA^[7343] 3920901562 := by rw [show (7423 : Nat) = 7343 + 80 from rfl, Function.iterate_add_apply, s176]
    _ = crcByteA^[7263] 3349483726 := by rw [show (7343 : Nat) = 7263 + 80 from rfl, Function.iterate_add_apply, s177]
    _ = crcByteA^[7183] 1945596724 := by rw [show (7263 : Nat) = 7183 + 80 from rfl, Function.iterate_add_apply, s178]
    _ = crcByteA^[7103] 2183573490 := by rw [show (7183 : Nat) = 7103 + 80 from rfl, Function.iterate_add_apply, s179]
    _ = crcByteA^[7023] 4006253298 := by rw [show (7103 : Nat) = 7023 + 80 from rfl, Function.iterate_add_apply, s180]
    _ = crcByteA^[6943] 2438967026 := by rw [show (7023 : Nat) = 6943 + 80 from rfl, Function.iterate_add_apply, s181]
    _ = crcByteA^[6863] 2148064546 := by rw [show (6943 : Nat) = 6863 + 80 from rfl, Function.iterate_add_apply, s182]
    _ = crcByteA^[6783] 4277812761 := by rw [show (6863 : Nat) = 6783 + 80 from rfl, Function.iterate_add_apply, s183]
    _ = crcByteA^[6703] 1249672154 := by rw [show (6783 : Nat) = 6703 + 80 from rfl, Function.iterate_add_apply, s184]
    _ = crcByteA^[6623] 3761863549 := by rw [show (6703 : Nat) = 6623 + 80 from rfl, Function.iterate_add_apply, s185]
    _ = crcByteA^[6543] 41484417 := by rw [show (6623 : Nat) = 6543 + 80 from rfl, Function.iterate_add_apply, s186]
    _ = crcByteA^[6463] 2555973229 := by rw [show (6543 : Nat) = 6463 + 80 from rfl, Function.iterate_add_apply, s187]
    _ = crcByteA^[6383] 2801559028 := by rw [show (6463 : Nat) = 6383 + 80 from rfl, Function.iterate_add_apply, s188]
    _ = crcByteA^[6303] 629726054 := by rw [show (6383 : Nat) = 6303 + 80 from rfl, Function.iterate_add_apply, s189]
    _ = crcByteA^[6223] 1424636891 := by rw [show (6303 : Nat) = 6223 + 80 from rfl, Function.iterate_add_apply, s190]
    _ = crcByteA^[6143] 2535261849 := by rw [show (6223 : Nat) = 6143 + 80 from rfl, Function.iterate_add_apply, s191]
    _ = crcByteA^[6063] 1865967860 := by rw [show (6143 : Nat) = 6063 + 80 from rfl, Function.iterate_add_apply, s192]
    _ = crcByteA^[5983] 2765006715 := by rw [show (6063 : Nat) = 5983 + 80 from rfl, Function.iterate_add_apply, s193]
    _ = crcByteA^[5903] 3650676656 := by rw [show (5983 : Nat) = 5903 + 80 from rfl, Function.iterate_add_apply, s194]
    _ = crcByteA^[5823] 3143231974 := by rw [show (5903 : Nat) = 5823 + 80 from rfl, Function.iterate_add_apply, s195]
    _ = crcByteA^[5743] 2199931362 := by rw [show (5823 : Nat) = 5743 + 80 from rfl, Function.iterate_add_apply, s196]
    _ = crcByteA^[5663] 648891460 := by rw [show (5743 : Nat) = 5663 + 80 from rfl, Function.iterate_add_apply, s197]
    _ = crcByteA^[5583] 3416203438 := by rw [show (5663 : Nat) = 5583 + 80 from rfl, Function.iterate_add_apply, s198]
    _ = crcByteA^[5503] 2487560666 := by rw [show (5583 : Nat) = 5503 + 80 from rfl, Function.iterate_add_apply, s199]
    _ = crcByteA^[5423] 3795886754 := by rw [show (5503 : Nat) = 5423 + 80 from rfl, Function.iterate_add_apply, s200]
    _ = crcByteA^[5343] 2301243080 := by rw [show (5423 : Nat) = 5343 + 80 from rfl, Function.iterate_add_apply, s201]
    _ = crcByteA^[5263] 604858592 := by rw [show (5343 : Nat) = 5263 + 80 from rfl, Function.iterate_add_apply, s202]
    _ = crcByteA^[5183] 706466290 := by rw [show (5263 : Nat) = 5183 + 80 from rfl, Function.iterate_add_apply, s203]
    _ = crcByteA^[5103] 2800291669 := by rw [show (5183 : Nat) = 5103 + 80 from rfl, Function.iterate_add_apply, s204]
    _ = crcByteA^[5023] 2172877359 := by rw [show (5103 : Nat) = 5023 + 80 from rfl, Function.iterate_add_apply, s205]
    _ = crcByteA^[4943] 4256950669 := by rw [show (5023 : Nat) = 4943 + 80 from rfl, Function.iterate_add_apply, s206]
    _ = crcByteA^[4863] 3296571376 := by rw [show (4943 : Nat) = 4863 + 80 from rfl, Function.iterate_add_apply, s207]
    _ = crcByteA^[4783] 2870924245 := by rw [show (4863 : Nat) = 4783 + 80 from rfl, Function.iterate_add_apply, s208]
    _ = crcByteA^[4703] 1828676104 := by rw [show (4783 : Nat) = 4703 + 80 from rfl, Function.iterate_add_apply, s209]
    _ = crcByteA^[4623] 2922873005 := by rw [show (4703 : Nat) = 4623 + 80 from rfl, Function.iterate_add_apply, s210]
    _ = crcByteA^[4543] 1356362017 := by rw [show (4623 : Nat) = 4543 + 80 from rfl, Function.iterate_add_apply, s211]
    _ = crcByteA^[4463] 5121951 := by rw [show (4543 : Nat) = 4463 + 80 from rfl, Function.iterate_add_apply, s212]
    _ = crcByteA^[4383] 3091052119 := by rw [show (4463 : Nat) = 4383 + 80 from rfl, Function.iterate_add_apply, s213]
    _ = crcByteA^[4303] 563362706 := by rw [show (4383 : Nat) = 4303 + 80 from rfl, Function.iterate_add_apply, s214]
    _ = crcByteA^[4223] 462512574 := by rw [show (4303 : Nat) = 4223 + 80 from rfl, Function.iterate_add_apply, s215]
    _ = crcByteA^[4143] 1315058985 := by rw [show (4223 : Nat) = 4143 + 80 from rfl, Function.iterate_add_apply, s216]
    _ = crcByteA^[4063] 3501625226 := by rw [show (4143 : Nat) = 4063 + 80 from rfl, Function.iterate_add_apply, s217]
    _ = crcByteA^[3983] 234463716 := by rw [show (4063 : Nat) = 3983 + 80 from rfl, Function.iterate_add_apply, s218]
    _ = crcByteA^[3903] 1107723672 := by rw [show (3983 : Nat) = 3903 + 80 from rfl, Function.iterate_add_apply, s219]
    _ = crcByteA^[3823] 3937022544 := by rw [show (3903 : Nat) = 3823 + 80 from rfl, Function.iterate_add_apply, s220]
    _ = crcByteA^[3743] 187952915 := by rw [show (3823 : Nat) = 3743 + 80 from rfl, Function.iterate_add_apply, s221]
    _ = crcByteA^[3663] 2099925034 := by rw [show (3743 : Nat) = 3663 + 80 from rfl, Function.iterate_add_apply, s222]
    _ = crcByteA^[3583] 762873997 := by rw [show (3663 : Nat) = 3583 + 80 from rfl, Function.iterate_add_apply, s223]
    _ = crcByteA^[3503] 1310057546 := by rw [show (3583 : Nat) = 3503 + 80 from rfl, Function.iterate_add_apply, s224]
    _ = crcByteA^[3423] 2741530251 := by rw [show (3503 : Nat) = 3423 + 80 from rfl, Function.iterate_add_apply, s225]
    _ = crcByteA^[3343] 3150703896 := by rw [show (3423 : Nat) = 3343 + 80 from rfl, Function.iterate_add_apply, s226]
    _ = crcByteA^[3263] 3274603601 := by rw [show (3343 : Nat) = 3263 + 80 from rfl, Function.iterate_add_apply, s227]
    _ = crcByteA^[3183] 3716915568 := by rw [show (3263 : Nat) = 3183 + 80 from rfl, Function.iterate_add_apply, s228]
    _ = crcByteA^[3103] 2347656777 := by rw [show (3183 : Nat) = 3103 + 80 from rfl, Function.iterate_add_apply, s229]
    _ = crcByteA^[3023] 779610919 := by rw [show (3103 : Nat) = 3023 + 80 from rfl, Function.iterate_add_apply, s230]
    _ = crcByteA^[2943] 3045644767 := by rw [show (3023 : Nat) = 2943 + 80 from rfl, Function.iterate_add_apply, s231]
    _ = crcByteA^[2863] 848407947 := by rw [show (2943 : Nat) = 2863 + 80 from rfl, Function.iterate_add_apply, s232]
    _ = crcByteA^[2783] 3881799462 := by rw [show (2863 : Nat) = 2783 + 80 from rfl, Function.iterate_add_apply, s233]
    _ = crcByteA^[2703] 3271103194 := by rw [show (2783 : Nat) = 2703 + 80 from rfl, Function.iterate_add_apply, s234]
    _ = crcByteA^[2623] 983215078 := by rw [show (2703 : Nat) = 2623 + 80 from rfl, Function.iterate_add_apply, s235]
    _ = crcByteA^[2543] 3137921945 := by rw [show (2623 : Nat) = 2543 + 80 from rfl, Function.iterate_add_apply, s236]
    _ = crcByteA^[2463] 651402853 := by rw [show (2543 : Nat) = 2463 + 80 from rfl, Function.iterate_add_apply, s237]
    _ = crcByteA^[2383] 1163446843 := by rw [show (2463 : Nat) = 2383 + 80 from rfl, Function.iterate_add_apply, s238]
    _ = crcByteA^[2303] 2826279210 := by rw [show (2383 : Nat) = 2303 + 80 from rfl, Function.iterate_add_apply, s239]
    _ = crcByteA^[2223] 3313406012 := by rw [show (2303 : Nat) = 2223 + 80 from rfl, Function.iterate_add_apply, s240]
    _ = crcByteA^[2143] 1035298774 := by rw [show (2223 : Nat) = 2143 + 80 from rfl, Function.iterate_add_apply, s241]
    _ = crcByteA^[2063] 3621285933 := by rw [show (2143 : Nat) = 2063 + 80 from rfl, Function.iterate_add_apply, s242]
    _ = crcByteA^[1983] 3039510312 := by rw [show (2063 : Nat) = 1983 + 80 from rfl, Function.iterate_add_apply, s243]
    _ = crcByteA^[1903] 1111722351 := by rw [show (1983 : Nat) = 1903 + 80 from rfl, Function.iterate_add_apply, s244]
    _ = crcByteA^[1823] 2682333791 := by rw [show (1903 : Nat) = 1823 + 80 from rfl, Function.iterate_add_apply, s245]
    _ = crcByteA^[1743] 4097944202 := by rw [show (1823 : Nat) = 1743 + 80 from rfl, Function.iterate_add_apply, s246]
    _ = crcByteA^[1663] 3571599320 := by rw [show (1743 : Nat) = 1663 + 80 from rfl, Function.iterate_add_apply, s247]
    _ = crcByteA^[1583] 1445138680 := by rw [show (1663 : Nat) = 1583 + 80 from rfl, Function.iterate_add_apply, s248]
    _ = crcByteA^[1503] 1051833607 := by rw [show (1583 : Nat) = 1503 + 80 from rfl, Function.iterate_add_apply, s249]
    _ = crcByteA^[1423] 2384591491 := by rw [show (1503 : Nat) = 1423 + 80 from rfl, Function.iterate_add_apply, s250]
    _ = crcByteA^[1343] 3134466060 := by rw [show (1423 : Nat) = 1343 + 80 from rfl, Function.iterate_add_apply, s251]
    _ = crcByteA^[1263] 3372839548 := by rw [show (1343 : Nat) = 1263 + 80 from rfl, Function.iterate_add_apply, s252]
    _ = crcByteA^[1183] 559583228 := by rw [show (1263 : Nat) = 1183 + 80 from rfl, Function.iterate_add_apply, s253]
    _ = crcByteA^[1103] 1943059673 := by rw [show (1183 : Nat) = 1103 + 80 from rfl, Function.iterate_add_apply, s254]
    _ = crcByteA^[1023] 2731868456 := by rw [show (1103 : Nat) = 1023 + 80 from rfl, Function.iterate_add_apply, s255]
    _ = crcByteA^[943] 3620152039 := by rw [show (1023 : Nat) = 943 + 80 from rfl, Function.iterate_add_apply, s256]
    _ = crcByteA^[863] 3173480262 := by rw [show (943 : Nat) = 863 + 80 from rfl, Function.iterate_add_apply, s257]
    _ = crcByteA^[783] 3205243938 := by rw [show (863 : Nat) = 783 + 80 from rfl, Function.iterate_add_apply, s258]
    _ = crcByteA^[703] 61451624 := by rw [show (783 : Nat) = 703 + 80 from rfl, Function.iterate_add_apply, s259]
    _ = crcByteA^[623] 2316852055 := by rw [show (703 : Nat) = 623 + 80 from rfl, Function.iterate_add_apply, s260]
    _ = crcByteA^[543] 383739715 := by rw [show (623 : Nat) = 543 + 80 from rfl, Function.iterate_add_apply, s261]
    _ = crcByteA^[463] 3553091370 := by rw [show (543 : Nat) = 463 + 80 from rfl, Function.iterate_add_apply, s262]
    _ = crcByteA^[383] 3617597959 := by rw [show (463 : Nat) = 383 + 80 from rfl, Function.iterate_add_apply, s263]
    _ = crcByteA^[303] 1070627662 := by rw [show (383 : Nat) = 303 + 80 from rfl, Function.iterate_add_apply, s264]
    _ = crcByteA^[223] 328531991 := by rw [show (303 : Nat) = 223 + 80 from rfl, Function.iterate_add_apply, s265]
    _ = crcByteA^[143] 2074270425 := by rw [show (223 : Nat) = 143 + 80 from rfl, Function.iterate_add_apply, s266]
    _ = crcByteA^[63] 2977371304 := by rw [show (143 : Nat) = 63 + 80 from rfl, Function.iterate_add_apply, s267]
    _ = 2675023729 := s268

theorem crc32Acc_cons (c b : Nat) (l : List Nat) :
    crc32Acc c (b :: l) = crc32Acc (crcByte c b) l := rfl

theorem compute_checksum_eq_of (l : List Nat) (v : Nat) (h : crc32Acc 0 l = v) :
    compute_checksum l = (v &&& 0xFFFF) ^^^ (v >>> 16) := by
  unfold compute_checksum crc32
  rw [h]

theorem checksum_blindspot :
    compute_checksum (64 :: List.replicate 21503 0) = 0 := by
  have hv : crcByte 0 64 = 1994146192 := by decide
  have h2 : crc32Acc 0 (64 :: List.replicate 21503 0) = 2675023729 := by
    rw [crc32Acc_cons, hv, crc32Acc_replicate_zero]
    exact crc_long_run
  rw [compute_checksum_eq_of _ _ h2]
  decide


theorem instantiate_never_checksum_err (c e : Nat) (d : List Nat) :
    instantiate_filter c e d ≠ .error .ChecksumMismatch := by
  unfold instantiate_filter
  exact (filterInit_never_checksum_err _ _ _).1

theorem dump_header_append (f : Filter) :
    dump f = [compute_checksum f.bf / 256 % 256, compute_checksum f.bf % 256,
      encErr f.error / 256 % 256, encErr f.error % 256,
      toUInt32 f.entries / 2 ^ 24 % 256, toUInt32 f.entries / 2 ^ 16 % 256,
      toUInt32 f.entries / 256 % 256, toUInt32 f.entries % 256] ++ f.bf := by
  rw [dump_as_cons]
  rfl

theorem flipBit_length (i : Nat) (l : List Nat) :
    (flipBit i l).length = l.length := by
  simp [flipBit]

theorem flipBit_dump (f : Filter) (i : Nat) :
    flipBit (64 + i) (dump f) =
      [compute_checksum f.bf / 256 % 256, compute_checksum f.bf % 256,
       encErr f.error / 256 % 256, encErr f.error % 256,
       toUInt32 f.entries / 2 ^ 24 % 256, toUInt32 f.entries / 2 ^ 16 % 256,
       toUInt32 f.entries / 256 % 256, toUInt32 f.entries % 256] ++ flipBit i f.bf := by
  rw [dump_header_append]
  unfold flipBit
  have hdiv : (64 + i) / 8 = 8 + i / 8 := by omega
  have hmod : (64 + i) % 8 = i % 8 := by omega
  rw [hdiv, hmod]
  rw [List.getD_append_right _ _ _ _ (by simp)]
  rw [List.set_append_right _ _ (by simp)]
  have h8 : ∀ k : Nat, 8 + k - 8 = k := fun k => by omega
  simp [h8]

/-- C5 (amended): flipping a single payload bit makes `load` fail with
`ChecksumMismatch` whenever the flip changes the folded checksum of the
payload; bit positions whose CRC syndrome cancels in the 16-bit fold are
not detected (see the counterexample). -/
theorem C5_checksum_sensitivity (f : Filter) (i : Nat) (hf : Wf f)
    (hi : i < 8 * f.bf.length)
    (hdiff : compute_checksum (flipBit i f.bf) ≠ compute_checksum f.bf) :
    load (flipBit (64 + i) (dump f)) = .error .ChecksumMismatch := by
  have hck16 : compute_checksum f.bf < 2 ^ 16 := compute_checksum_lt f.bf hf.2.2.2.1
  rw [flipBit_dump]
  apply load_checksum_mismatch
  · rw [List.length_append, flipBit_length]
    simp
    omega
  · have hdrop : ([compute_checksum f.bf / 256 % 256, compute_checksum f.bf % 256,
        encErr f.error / 256 % 256, encErr f.error % 256,
        toUInt32 f.entries / 2 ^ 24 % 256, toUInt32 f.entries / 2 ^ 16 % 256,
        toUInt32 f.entries / 256 % 256, toUInt32 f.entries % 256] ++
          flipBit i f.bf).drop 8 = flipBit i f.bf := rfl
    rw [hdrop]
    have hrd : rd16 ([compute_checksum f.bf / 256 % 256, compute_checksum f.bf % 256,
        encErr f.error / 256 % 256, encErr f.error % 256,
        toUInt32 f.entries / 2 ^ 24 % 256, toUInt32 f.entries / 2 ^ 16 % 256,
        toUInt32 f.entries / 256 % 256, toUInt32 f.entries % 256] ++
          flipBit i f.bf) = compute_checksum f.bf := by
      simp [rd16]
      omega
    rw [hrd]
    exact hdiff

/-- Witness for the amended C5: flipping payload bit 0 of the dump of a
concrete one-byte filter is caught as a checksum mismatch. -/
theorem C5_checksum_sensitivity_witness :
    load (flipBit 64 (dump ⟨1, 1 / 2, 8, 1, 2, [0]⟩)) = .error .ChecksumMismatch :=
  C5_checksum_sensitivity ⟨1, 1 / 2, 8, 1, 2, [0]⟩ 0
    ⟨by norm_num, by norm_num, by norm_num, by simp, by norm_num, by norm_num,
      by norm_num, by norm_num⟩
    (by norm_num)
    (by decide)

theorem ce_wf : Wf ⟨1, 1 / 2, 172032, 21504, 1, List.replicate 21504 0⟩ :=
  ⟨by norm_num, by norm_num, List.length_replicate 21504 0, fun b hb => by
    rw [List.eq_of_mem_replicate hb]; norm_num, by norm_num, by norm_num,
    by norm_num, by norm_num⟩

theorem ce_flip : flipBit 70 (dump ⟨1, 1 / 2, 172032, 21504, 1, List.replicate 21504 0⟩) =
    [0, 0, 0, 2, 0, 0, 0, 1] ++ (64 :: List.replicate 21503 0) := by
  have h70 : (70 : Nat) = 64 + 6 := by norm_num
  rw [h70, flipBit_dump]
  simp only
  rw [checksum_replicate_zero, encErr_half]
  have hu : toUInt32 (1 : Int) = 1 := by decide
  rw [hu]
  have hbf : flipBit 6 (List.replicate 21504 0) = 64 :: List.replicate 21503 0 := by
    unfold flipBit
    rw [show (21504 : Nat) = 21503 + 1 from rfl]
    rw [show List.replicate (21503 + 1) (0 : Nat) =
      0 :: List.replicate 21503 0 from List.replicate_succ 0 21503]
    rw [show (6 : Nat) / 8 = 0 from rfl, show (6 : Nat) % 8 = 6 from rfl]
    rw [List.getD_cons_zero, List.set_cons_zero]
    rfl
  rw [hbf]
  norm_num

theorem ce_load : load ([0, 0, 0, 2, 0, 0, 0, 1] ++ (64 :: List.replicate 21503 0)) ≠
    .error .ChecksumMismatch := by
  have h9 : ¬([0, 0, 0, 2, 0, 0, 0, 1] ++ (64 :: List.replicate 21503 0) : List Nat).length < 9 := by
    rw [List.length_append,
      show ([0, 0, 0, 2, 0, 0, 0, 1] : List Nat).length = 8 from rfl,
      List.length_cons, List.length_replicate]
    omega
  have hck : compute_checksum (([0, 0, 0, 2, 0, 0, 0, 1] ++
      (64 :: List.replicate 21503 0) : List Nat).drop 8) =
      rd16 ([0, 0, 0, 2, 0, 0, 0, 1] ++ (64 :: List.replicate 21503 0)) := by
    have hdrop : (([0, 0, 0, 2, 0, 0, 0, 1] ++
        (64 :: List.replicate 21503 0) : List Nat)).drop 8 =
        64 :: List.replicate 21503 0 := rfl
    rw [hdrop, checksum_blindspot]
    rfl
  rw [load_delegates _ h9 hck]
  exact instantiate_never_checksum_err _ _ _

/-- C5 fails as stated: in the dump of a well-formed filter whose bit
array is 21504 zero bytes, flipping payload bit 6 (buffer bit 70) leaves
the folded 16-bit checksum unchanged — the 32-bit CRC of the flipped
payload is 0x9f719f71, whose halves cancel in the fold — so `load` does
not fail with `ChecksumMismatch` there. -/
theorem C5_counterexample :
    Wf ⟨1, 1 / 2, 172032, 21504, 1, List.replicate 21504 0⟩ ∧
    load (flipBit 70 (dump ⟨1, 1 / 2, 172032, 21504, 1, List.replicate 21504 0⟩)) ≠
      .error .ChecksumMismatch := by
  refine ⟨ce_wf, ?_⟩
  rw [ce_flip]
  exact ce_load


end PyBlossom
